import Mathlib

/-!
Verification of the background job execution engine of the `world2_autogen`
server (Python sources under `src/server/src`).  The Python code is shallowly
embedded: each Lean definition mirrors one function or statement of the
source, with machine-level details (database connections, network I/O,
logging) replaced by explicit state passing and environment functions.
Theorems below settle the specification claims against these embeddings.
-/

namespace World2

/-- `JobStatus` from `db/background_jobs.py`. -/
inductive JobStatus where
  | pending
  | in_progress
  | completed
  | failed
  | cancelling
  | canceled
deriving DecidableEq, Repr

/-- `TaskName` from `db/background_jobs.py`. -/
inductive TaskName where
  | DISCOVER_AND_CRAWL_SOURCES
  | CONFIRM_LINKS
  | PROCESS_PROJECT_ENTRIES
  | GENERATE_SEARCH_PARAMS
  | RESCAN_LINKS
  | FETCH_SOURCE_CONTENT
  | GENERATE_CHARACTER_CARD
  | REGENERATE_CHARACTER_FIELD
deriving DecidableEq, Repr

/-- `LinkStatus` from `db/links.py` (values as used throughout
`services/background_jobs.py`: pending, processing, completed, failed,
skipped). -/
inductive LinkStatus where
  | pending
  | processing
  | completed
  | failed
  | skipped
deriving DecidableEq, Repr

/-- `ProjectStatus` from `db/projects.py`. -/
inductive ProjectStatus where
  | draft
  | search_params_generated
  | selector_generated
  | links_extracted
  | processing
  | completed
  | failed
deriving DecidableEq, Repr

/-- A JSON-like value: the stored `payload` / `result` columns of the
`BackgroundJob` table before pydantic validation.  UUIDs are kept as
strings. -/
inductive Json where
  | null
  | str (s : String)
  | num (n : Int)
  | boolean (b : Bool)
  | arr (elems : List Json)
  | obj (fields : List (String × Json))

/-- A raw `BackgroundJob` database row as handed to `_deserialize_job`. -/
structure DbJobRow where
  id : Nat
  task_name : TaskName
  project_id : String
  payload : Option Json
  status : JobStatus
  result : Option Json
  error_message : Option String
  total_items : Option Nat
  processed_items : Option Nat
  progress : Option Nat
  created_at : Nat
  updated_at : Nat

/-- A `Link` database row (fields used by the engine). -/
structure LinkRow where
  id : Nat
  project_id : String
  url : String
  status : LinkStatus
  lorebook_entry_id : Option Nat
deriving DecidableEq, Repr

/-! ### Cancel endpoint (`controllers/background_jobs.py`, `cancel_job`) -/

/-- Outcome of the cancel endpoint: job not found (404), job already in a
terminal state (HTTP 400 error raised inside the transaction, nothing
updated), or the job updated to a new status. -/
inductive CancelOutcome where
  | notFound
  | terminalError (s : JobStatus)
  | updated (s : JobStatus)
deriving DecidableEq, Repr

/-- Embedding of `BackgroundJobController.cancel_job`: given the stored
status of the addressed job (`none` when the row does not exist), return the
endpoint outcome together with the job status stored afterwards. -/
def cancel_job (job : Option JobStatus) : CancelOutcome × Option JobStatus :=
  match job with
  | none => (CancelOutcome.notFound, none)
  | some s =>
    if s = JobStatus.completed ∨ s = JobStatus.failed ∨ s = JobStatus.canceled then
      (CancelOutcome.terminalError s, some s)
    else if s = JobStatus.in_progress then
      (CancelOutcome.updated JobStatus.cancelling, some JobStatus.cancelling)
    else
      (CancelOutcome.updated JobStatus.canceled, some JobStatus.canceled)

/-! ### Startup recovery pass (`db/background_jobs.py`,
`reset_in_progress_jobs_to_pending`, and `main.py`, `recover_stale_datas`) -/

/-- Embedding of the SQL statement
`UPDATE "BackgroundJob" SET status = 'pending'
 WHERE status IN ('in_progress', 'cancelling')`
run over the whole table. -/
def reset_in_progress_jobs_to_pending (rows : List DbJobRow) : List DbJobRow :=
  rows.map (fun r =>
    if r.status = JobStatus.in_progress ∨ r.status = JobStatus.cancelling then
      { r with status := JobStatus.pending }
    else r)

/-- Modelled from the spec: `db/links.py` is not under `src/`; only its
callers are (`main.py` imports `reset_processing_links_to_pending` from it).
Per the spec, the startup recovery pass "performs the analogous reset for
`Link` rows stuck in `processing`", i.e. every link in status `processing`
is set back to `pending` and nothing else changes. -/
def reset_processing_links_to_pending (links : List LinkRow) : List LinkRow :=
  links.map (fun l =>
    if l.status = LinkStatus.processing then
      { l with status := LinkStatus.pending }
    else l)

/-! ### Finalization of `process_project_entries`
(`services/background_jobs.py`, lines 1622-1649) -/

/-- Embedding of the SQL statement executed in the cancellation branch of the
finalization phase:
`UPDATE "Link" SET status = 'pending'
 WHERE project_id = %s AND status = 'processing'`. -/
def sql_reset_processing_links (project_id : String) (links : List LinkRow) :
    List LinkRow :=
  links.map (fun l =>
    if l.project_id = project_id ∧ l.status = LinkStatus.processing then
      { l with status := LinkStatus.pending }
    else l)

/-- Result of the finalization transaction of `process_project_entries`. -/
structure FinalizeOutcome where
  jobStatus : JobStatus
  links : List LinkRow
  projectStatus : Option ProjectStatus
  jobResult : Option (Nat × Nat × Nat)
deriving DecidableEq, Repr

/-- Embedding of the finalization phase of `process_project_entries`:
if cancellation was observed, mark the job `canceled` and reset this
project's `processing` links to `pending`; otherwise set the project status
from the failure count and record the result counts
(`entries_created`, `entries_skipped`, `entries_failed`). -/
def process_entries_finalize (cancelled : Bool) (project_id : String)
    (total_created total_skipped total_failed : Nat) (links : List LinkRow) :
    FinalizeOutcome :=
  if cancelled then
    { jobStatus := JobStatus.canceled
      links := sql_reset_processing_links project_id links
      projectStatus := none
      jobResult := none }
  else
    { jobStatus := JobStatus.completed
      links := links
      projectStatus := some
        (if total_failed = 0 then ProjectStatus.completed else ProjectStatus.failed)
      jobResult := some (total_created, total_skipped, total_failed) }

/-! ### Job deserialization (`db/background_jobs.py`, `_deserialize_job`)

The payload and result columns hold JSON already parsed by the database
layer; pydantic's `model_validate` is embedded as a validator per model
class (UUIDs kept as strings).  A validator returns `none` exactly when
`model_validate` raises `ValidationError`. -/

/-- `dict.get(key)` on a JSON object. -/
def Json.getField : Json → String → Option Json
  | Json.obj fields, key => fields.lookup key
  | _, _ => none

/-- Validate a JSON value as `str`. -/
def decodeStr : Json → Option String
  | Json.str s => some s
  | _ => none

/-- Validate a JSON value as `int`. -/
def decodeInt : Json → Option Int
  | Json.num n => some n
  | _ => none

/-- Validate a JSON value as `bool`. -/
def decodeBool : Json → Option Bool
  | Json.boolean b => some b
  | _ => none

/-- Validate a JSON value as `List[str]` (also used for `List[UUID]`,
with UUIDs kept as strings). -/
def decodeStringList : Json → Option (List String)
  | Json.arr xs => xs.mapM decodeStr
  | _ => none

/-- A required pydantic field: missing key is a validation error. -/
def decodeReqField (j : Json) (key : String) (dec : Json → Option α) :
    Option α :=
  match j.getField key with
  | none => none
  | some v => dec v

/-- An optional pydantic field with default `None`: a missing key or an
explicit `null` yields the default; any other value must validate. -/
def decodeOptField (j : Json) (key : String) (dec : Json → Option α) :
    Option (Option α) :=
  match j.getField key with
  | none => some none
  | some Json.null => some none
  | some v => (dec v).map some

/-- The decoded payload models of `db/background_jobs.py` as a tagged
union (`TaskPayload`).  `RegenerateCharacterFieldPayload` carries its
nested `context_options` inline. -/
inductive TaskPayload where
  | discoverAndCrawlSources (source_ids : List String)
  | confirmLinks (urls : List String)
  | processProjectEntries (link_ids : Option (List String))
  | generateSearchParams
  | fetchSourceContent (source_ids : List String)
  | generateCharacterCard (source_ids : Option (List String))
  | regenerateCharacterField (field_to_regenerate : String)
      (custom_prompt : Option String) (include_existing_fields : Bool)
      (source_ids_to_include : List String)
deriving DecidableEq, Repr

/-- The decoded result models of `db/background_jobs.py` as a tagged
union (`TaskResult`). -/
inductive TaskResult where
  | discoverAndCrawlSources (new_links existing_links : List String)
      (new_sources_created selectors_generated : Int)
      (sources_failed : List String)
  | confirmLinks (links_saved : Int)
  | processProjectEntries (entries_created entries_failed entries_skipped : Int)
  | generateSearchParams
  | fetchSourceContent (sources_fetched sources_failed : Int)
  | generateCharacterCard
  | regenerateCharacterField (field_regenerated : String)
deriving DecidableEq, Repr

/-- `DiscoverAndCrawlSourcesPayload.model_validate`. -/
def validate_discover_payload (j : Json) : Option TaskPayload :=
  match j with
  | Json.obj _ =>
    (decodeReqField j "source_ids" decodeStringList).map
      TaskPayload.discoverAndCrawlSources
  | _ => none

/-- `ConfirmLinksPayload.model_validate`. -/
def validate_confirm_links_payload (j : Json) : Option TaskPayload :=
  match j with
  | Json.obj _ =>
    (decodeReqField j "urls" decodeStringList).map TaskPayload.confirmLinks
  | _ => none

/-- `ProcessProjectEntriesPayload.model_validate`. -/
def validate_process_entries_payload (j : Json) : Option TaskPayload :=
  match j with
  | Json.obj _ =>
    (decodeOptField j "link_ids" decodeStringList).map
      TaskPayload.processProjectEntries
  | _ => none

/-- `GenerateSearchParamsPayload.model_validate` (no fields). -/
def validate_search_params_payload (j : Json) : Option TaskPayload :=
  match j with
  | Json.obj _ => some TaskPayload.generateSearchParams
  | _ => none

/-- `FetchSourceContentPayload.model_validate`. -/
def validate_fetch_content_payload (j : Json) : Option TaskPayload :=
  match j with
  | Json.obj _ =>
    (decodeReqField j "source_ids" decodeStringList).map
      TaskPayload.fetchSourceContent
  | _ => none

/-- `GenerateCharacterCardPayload.model_validate`. -/
def validate_generate_card_payload (j : Json) : Option TaskPayload :=
  match j with
  | Json.obj _ =>
    (decodeOptField j "source_ids" decodeStringList).map
      TaskPayload.generateCharacterCard
  | _ => none

/-- `RegenerateCharacterFieldContextOptions.model_validate`. -/
def validate_context_options (j : Json) : Option (Bool × List String) :=
  match j with
  | Json.obj _ =>
    match decodeReqField j "include_existing_fields" decodeBool,
        decodeReqField j "source_ids_to_include" decodeStringList with
    | some b, some ids => some (b, ids)
    | _, _ => none
  | _ => none

/-- `RegenerateCharacterFieldPayload.model_validate`. -/
def validate_regenerate_payload (j : Json) : Option TaskPayload :=
  match j with
  | Json.obj _ =>
    match decodeReqField j "field_to_regenerate" decodeStr,
        decodeOptField j "custom_prompt" decodeStr,
        decodeReqField j "context_options" validate_context_options with
    | some f, some c, some bi =>
      some (TaskPayload.regenerateCharacterField f c bi.1 bi.2)
    | _, _, _ => none
  | _ => none

/-- The `payload_map` of `_deserialize_job`: the payload model keyed by the
row's task name (note `RESCAN_LINKS` reuses
`DiscoverAndCrawlSourcesPayload`). -/
def payload_validator : TaskName → Json → Option TaskPayload
  | TaskName.DISCOVER_AND_CRAWL_SOURCES => validate_discover_payload
  | TaskName.CONFIRM_LINKS => validate_confirm_links_payload
  | TaskName.PROCESS_PROJECT_ENTRIES => validate_process_entries_payload
  | TaskName.GENERATE_SEARCH_PARAMS => validate_search_params_payload
  | TaskName.RESCAN_LINKS => validate_discover_payload
  | TaskName.FETCH_SOURCE_CONTENT => validate_fetch_content_payload
  | TaskName.GENERATE_CHARACTER_CARD => validate_generate_card_payload
  | TaskName.REGENERATE_CHARACTER_FIELD => validate_regenerate_payload

/-- `DiscoverAndCrawlSourcesResult.model_validate` (the `sources_failed`
field-validator maps a missing or `null` value to `[]`). -/
def validate_discover_result (j : Json) : Option TaskResult :=
  match j with
  | Json.obj _ =>
    match decodeReqField j "new_links" decodeStringList,
        decodeReqField j "existing_links" decodeStringList,
        decodeReqField j "new_sources_created" decodeInt,
        decodeReqField j "selectors_generated" decodeInt,
        decodeOptField j "sources_failed" decodeStringList with
    | some nl, some el, some ns, some sg, some sf =>
      some (TaskResult.discoverAndCrawlSources nl el ns sg (sf.getD []))
    | _, _, _, _, _ => none
  | _ => none

/-- `ConfirmLinksResult.model_validate`. -/
def validate_confirm_links_result (j : Json) : Option TaskResult :=
  match j with
  | Json.obj _ =>
    (decodeReqField j "links_saved" decodeInt).map TaskResult.confirmLinks
  | _ => none

/-- `ProcessProjectEntriesResult.model_validate`. -/
def validate_process_entries_result (j : Json) : Option TaskResult :=
  match j with
  | Json.obj _ =>
    match decodeReqField j "entries_created" decodeInt,
        decodeReqField j "entries_failed" decodeInt,
        decodeReqField j "entries_skipped" decodeInt with
    | some c, some f, some s => some (TaskResult.processProjectEntries c f s)
    | _, _, _ => none
  | _ => none

/-- `GenerateSearchParamsResult.model_validate` (no fields). -/
def validate_search_params_result (j : Json) : Option TaskResult :=
  match j with
  | Json.obj _ => some TaskResult.generateSearchParams
  | _ => none

/-- `FetchSourceContentResult.model_validate`. -/
def validate_fetch_content_result (j : Json) : Option TaskResult :=
  match j with
  | Json.obj _ =>
    match decodeReqField j "sources_fetched" decodeInt,
        decodeReqField j "sources_failed" decodeInt with
    | some a, some b => some (TaskResult.fetchSourceContent a b)
    | _, _ => none
  | _ => none

/-- `GenerateCharacterCardResult.model_validate` (no fields). -/
def validate_generate_card_result (j : Json) : Option TaskResult :=
  match j with
  | Json.obj _ => some TaskResult.generateCharacterCard
  | _ => none

/-- `RegenerateCharacterFieldResult.model_validate`. -/
def validate_regenerate_result (j : Json) : Option TaskResult :=
  match j with
  | Json.obj _ =>
    (decodeReqField j "field_regenerated" decodeStr).map
      TaskResult.regenerateCharacterField
  | _ => none

/-- The `result_map` of `_deserialize_job`: the result model keyed by the
row's task name (note `RESCAN_LINKS` reuses
`DiscoverAndCrawlSourcesResult`). -/
def result_validator : TaskName → Json → Option TaskResult
  | TaskName.DISCOVER_AND_CRAWL_SOURCES => validate_discover_result
  | TaskName.CONFIRM_LINKS => validate_confirm_links_result
  | TaskName.PROCESS_PROJECT_ENTRIES => validate_process_entries_result
  | TaskName.GENERATE_SEARCH_PARAMS => validate_search_params_result
  | TaskName.RESCAN_LINKS => validate_discover_result
  | TaskName.FETCH_SOURCE_CONTENT => validate_fetch_content_result
  | TaskName.GENERATE_CHARACTER_CARD => validate_generate_card_result
  | TaskName.REGENERATE_CHARACTER_FIELD => validate_regenerate_result

/-- The `BackgroundJob` pydantic model: `payload` is a required,
non-Optional field inherited from `CreateBackgroundJob`, while `result`
is `Optional` with default `None`. -/
structure BackgroundJob where
  id : Nat
  task_name : TaskName
  project_id : String
  payload : TaskPayload
  status : JobStatus
  result : Option TaskResult
  error_message : Option String
  total_items : Option Nat
  processed_items : Option Nat
  progress : Option Nat
  created_at : Nat
  updated_at : Nat
deriving DecidableEq, Repr

/-- Embedding of `_deserialize_job`: decode `payload` and `result` with the
model keyed by the row's `task_name`, setting the field to `None` when
validation fails (the caught `ValidationError`/`KeyError` branch); then
build the `BackgroundJob` model from the row.  Because `payload` is a
required non-Optional field of `BackgroundJob`, that final construction
itself raises `ValidationError` when the decoded payload is `None` — the
uncaught exception is the `Except.error` case. -/
def deserialize_job (row : DbJobRow) : Except String BackgroundJob :=
  let payloadDecoded : Option TaskPayload :=
    row.payload.bind (payload_validator row.task_name)
  let resultDecoded : Option TaskResult :=
    row.result.bind (result_validator row.task_name)
  match payloadDecoded with
  | some p =>
    Except.ok
      { id := row.id, task_name := row.task_name, project_id := row.project_id,
        payload := p, status := row.status, result := resultDecoded,
        error_message := row.error_message, total_items := row.total_items,
        processed_items := row.processed_items, progress := row.progress,
        created_at := row.created_at, updated_at := row.updated_at }
  | none =>
    Except.error "ValidationError: payload is a required field of BackgroundJob"

/-! ### Atomic claim (`db/background_jobs.py`,
`get_and_lock_pending_background_job`) -/

/-- A row of the job queue as seen by the claim operation. -/
structure QueueJob where
  jid : Nat
  status : JobStatus
  created_at : Nat
deriving DecidableEq, Repr

/-- Fold step selecting the job with the smallest `created_at`. -/
def pick_older (acc : Option QueueJob) (j : QueueJob) : Option QueueJob :=
  match acc with
  | none => some j
  | some b => if j.created_at < b.created_at then some j else some b

/-- The oldest `pending` job of the table, if any. -/
def oldest_pending (jobs : List QueueJob) : Option QueueJob :=
  (jobs.filter (fun j => j.status = JobStatus.pending)).foldl pick_older none

/-- Modelled from the spec: the locking implementation behind
`get_and_lock_pending_background_job` lives in `db/database.py`
(`AsyncDB.get_and_lock_pending_background_job`), which is not under `src/`;
`db/background_jobs.py` only delegates to it.  Per the spec, the operation
"atomically retrieve[s] the oldest pending job and set[s] its status to
'in_progress'" using row-level locking ("select for update, skip locked"
semantics), so each concurrent caller observes it as one indivisible state
transition on the table.  This function is that atomic step: it returns the
claimed job (already flipped to `in_progress`) and the updated table. -/
def claim_next_pending (jobs : List QueueJob) :
    Option QueueJob × List QueueJob :=
  match oldest_pending jobs with
  | none => (none, jobs)
  | some j =>
    (some { j with status := JobStatus.in_progress },
     jobs.map (fun x =>
       if x.jid = j.jid then { x with status := JobStatus.in_progress } else x))

theorem foldl_pick_older_mem (l : List QueueJob) (acc : Option QueueJob)
    (j : QueueJob) (h : l.foldl pick_older acc = some j) :
    acc = some j ∨ j ∈ l := by
  induction l generalizing acc with
  | nil => exact Or.inl h
  | cons x xs ih =>
    rcases ih (pick_older acc x) h with hpick | hmem
    · cases acc with
      | none =>
        simp only [pick_older] at hpick
        exact Or.inr ((Option.some.inj hpick) ▸ List.mem_cons_self x xs)
      | some b =>
        simp only [pick_older] at hpick
        split at hpick
        · exact Or.inr ((Option.some.inj hpick) ▸ List.mem_cons_self x xs)
        · exact Or.inl hpick
    · exact Or.inr (List.mem_cons_of_mem x hmem)

theorem oldest_pending_spec (jobs : List QueueJob) (j : QueueJob)
    (h : oldest_pending jobs = some j) :
    j ∈ jobs ∧ j.status = JobStatus.pending := by
  rcases foldl_pick_older_mem _ none j h with hcontra | hmem
  · exact absurd hcontra (by simp)
  · have hm := List.mem_filter.mp hmem
    exact ⟨hm.1, by simpa using hm.2⟩

/-! ### Batched write loop of `process_project_entries`
(`services/background_jobs.py`, lines 1583-1617, and `_process_db_batch`) -/

/-- The three per-link outcomes produced by `_process_single_link_io`:
`LinkSuccessResult`, `LinkSkippedResult`, `LinkFailedResult`. -/
inductive LinkOutcome where
  | created
  | skipped
  | failed
deriving DecidableEq, Repr

/-- `DB_WRITE_BATCH_SIZE` from `services/background_jobs.py`. -/
def DB_WRITE_BATCH_SIZE : Nat := 10

/-- Embedding of `_process_db_batch`: applies one batch of outcomes inside a
single transaction and returns the `created`/`skipped`/`failed` counts of
that batch. -/
def process_db_batch (batch : List LinkOutcome) : Nat × Nat × Nat :=
  (batch.count LinkOutcome.created,
   batch.count LinkOutcome.skipped,
   batch.count LinkOutcome.failed)

/-- Accumulator state of the `as_completed` loop of
`process_project_entries`: the pending batch, the running totals, the sizes
of the batches committed so far (one transaction each), and the
`processed_items` value written to the job after each committed batch. -/
structure EntriesLoopState where
  batch : List LinkOutcome
  total_processed : Nat
  total_created : Nat
  total_skipped : Nat
  total_failed : Nat
  batchSizes : List Nat
  progressUpdates : List Nat
deriving DecidableEq, Repr

/-- The loop state before the first future completes. -/
def entries_loop_init : EntriesLoopState := ⟨[], 0, 0, 0, 0, [], []⟩

/-- One iteration of the `as_completed` loop of `process_project_entries` in
a run where no cancellation is observed (every task returns exactly one
outcome): append the arrived outcome to the batch, and flush the batch via
`_process_db_batch` when it is full (`DB_WRITE_BATCH_SIZE`) or when all
`total_links` outcomes have arrived, then update the job progress. -/
def entries_loop_step (total_links : Nat) (st : EntriesLoopState)
    (o : LinkOutcome) : EntriesLoopState :=
  let batch := st.batch ++ [o]
  if DB_WRITE_BATCH_SIZE ≤ batch.length ∨
      st.total_processed + batch.length = total_links then
    let counts := process_db_batch batch
    { batch := []
      total_processed := st.total_processed + batch.length
      total_created := st.total_created + counts.1
      total_skipped := st.total_skipped + counts.2.1
      total_failed := st.total_failed + counts.2.2
      batchSizes := st.batchSizes ++ [batch.length]
      progressUpdates := st.progressUpdates ++ [st.total_processed + batch.length] }
  else
    { st with batch := batch }

/-- The whole (non-cancelled) two-phase run of `process_project_entries`
over the list of per-link outcomes, in the order the futures complete. -/
def process_project_entries_loop (total_links : Nat)
    (outcomes : List LinkOutcome) : EntriesLoopState :=
  outcomes.foldl (entries_loop_step total_links) entries_loop_init

/-- Projection of the loop state that ignores the outcome values: batch
length, processed count and progress updates. -/
def entries_shape (st : EntriesLoopState) : Nat × Nat × List Nat :=
  (st.batch.length, st.total_processed, st.progressUpdates)

/-- The step of `entries_loop_step` on the shape projection. -/
def entries_step_shape (n : Nat) (p : Nat × Nat × List Nat) :
    Nat × Nat × List Nat :=
  let bl := p.1 + 1
  if DB_WRITE_BATCH_SIZE ≤ bl ∨ p.2.1 + bl = n then
    (0, p.2.1 + bl, p.2.2 ++ [p.2.1 + bl])
  else
    (bl, p.2.1, p.2.2)

/-- Iterating the shape step. -/
def entries_iter_shape (n : Nat) : Nat → (Nat × Nat × List Nat) → Nat × Nat × List Nat
  | 0, p => p
  | k + 1, p => entries_iter_shape n k (entries_step_shape n p)

/-! ### Crawl engine (`services/background_jobs.py`, `_crawl_and_discover`,
`discover_and_crawl_sources`, `rescan_links`)

A fetched page is modelled by the `href` attributes its CSS selectors
match; URL resolution (`urljoin`) and the per-pattern exclusion test
(`re.search` / substring, both calls into external libraries) are
environment functions.  Python `set`s are modelled as duplicate-free lists
with order-insensitive insertion, so membership facts are exactly those of
the sets. -/

/-- `SelectorResponse` from `schemas.py`. -/
structure SelectorResponse where
  content_selectors : List String
  category_selectors : List String
  pagination_selector : Option String
deriving DecidableEq, Repr

/-- A `ProjectSource` row (the fields the crawl engine reads). -/
structure ProjectSource where
  id : Nat
  project_id : String
  url : String
  max_pages_to_crawl : Nat
  max_crawl_depth : Nat
  url_exclusion_patterns : List String
  link_extraction_selector : Option (List String)
  link_extraction_pagination_selector : Option String
deriving DecidableEq, Repr

/-- A fetched, parsed page: `soup.select(sel)` is the list of `href`
attributes of the matched tags (`none` when a tag has no href attribute).
An invalid CSS selector raises `SelectorSyntaxError`, which the code logs
and skips — observationally the same as a selector matching nothing.
`soup.select_one` takes the head of the list. -/
structure PageDoc where
  selects : String → List (Option String)

/-- The crawl engine's environment: the scraper (`none` when
`scraper.get_content` raises), `urljoin`, the per-pattern match of
`is_excluded` (a `/regex/`-delimited pattern uses `re.search`, degrading
to substring match on `re.error`, otherwise plain substring match), and
the selector-generation model call of `discover_and_crawl_sources`
(`none` when the provider returns `ChatCompletionErrorResponse`, which
raises and fails the source). -/
structure CrawlEnv where
  fetch : String → Option PageDoc
  resolve : String → String → String
  matchesPattern : String → String → Bool
  genSelectors : ProjectSource → Option SelectorResponse

/-- `CrawlResult` from `services/background_jobs.py` (per
`_crawl_and_discover` call). -/
structure CrawlResult where
  new_links : List String
  existing_links : List String
  new_sources_created : Nat
deriving DecidableEq, Repr

/-- The `ProjectSource` table plus the source-hierarchy edges
(`add_source_child_relationship` rows as `(project_id, parent, child)`). -/
structure CrawlDb where
  sources : List ProjectSource
  nextId : Nat
  edges : List (String × Nat × Nat)
deriving DecidableEq, Repr

/-- Shared mutable state of one `_crawl_and_discover` call: the BFS queue,
the visited-source-URL set, the database, and the call's fresh
`CrawlResult`. -/
structure CrawlState where
  queue : List (Nat × Nat)
  visited : List String
  db : CrawlDb
  result : CrawlResult
deriving DecidableEq, Repr

/-- `set.add`: insert preserving duplicate-freeness. -/
def insertSet (u : String) (s : List String) : List String :=
  if u ∈ s then s else s ++ [u]

/-- `is_excluded` of `_crawl_and_discover`: true when any exclusion
pattern matches. -/
def is_excluded (env : CrawlEnv) (patterns : List String) (url : String) :
    Bool :=
  patterns.any (fun pat => env.matchesPattern pat url)

/-- The selector loops of `_crawl_and_discover`: for each selector, for
each matched tag with a truthy `href`, resolve it against the current page
URL and keep it unless excluded.  Collects a set of absolute URLs. -/
def collect_selector_urls (env : CrawlEnv) (page : PageDoc) (cur : String)
    (patterns : List String) (sels : List String) : List String :=
  sels.foldl (fun acc sel =>
    (page.selects sel).foldl (fun acc href? =>
      match href? with
      | none => acc
      | some href =>
        if href = "" then acc
        else
          let absolute_url := env.resolve cur href
          if is_excluded env patterns absolute_url then acc
          else insertSet absolute_url acc) acc) []

/-- The content-URL classification loop of `_crawl_and_discover` (lines
817-821): a URL already persisted goes to `existing_links`; otherwise it
goes to `new_links` unless already discovered earlier in this job. -/
def classify_content_urls (existing_db_links newly_discovered : List String)
    (res : CrawlResult) (urls : List String) : CrawlResult :=
  urls.foldl (fun res url =>
    if url ∈ existing_db_links then
      { res with existing_links := insertSet url res.existing_links }
    else if url ∈ newly_discovered then res
    else { res with new_links := insertSet url res.new_links }) res

/-- `get_project_source_by_url`. -/
def get_project_source_by_url (db : CrawlDb) (pid url : String) :
    Option ProjectSource :=
  db.sources.find? (fun s => s.project_id == pid && s.url == url)

/-- `get_project_source` (lookup by id). -/
def get_project_source (db : CrawlDb) (sid : Nat) : Option ProjectSource :=
  db.sources.find? (fun s => s.id == sid)

/-- One surviving category URL on the source's first page: skip if already
visited, else reuse an existing `ProjectSource` row with that URL or create
one inheriting the parent's limits and exclusions, record the
parent-to-child hierarchy edge, and enqueue the child at `depth + 1`. -/
def process_category_url (pid : String) (src : ProjectSource) (depth : Nat)
    (st : CrawlState) (cat_url : String) : CrawlState :=
  if cat_url ∈ st.visited then st
  else
    let visited := st.visited ++ [cat_url]
    match get_project_source_by_url st.db pid cat_url with
    | some child =>
      { st with
        visited := visited
        db := { st.db with edges := st.db.edges ++ [(pid, src.id, child.id)] }
        queue := st.queue ++ [(child.id, depth + 1)] }
    | none =>
      let child : ProjectSource :=
        { id := st.db.nextId, project_id := pid, url := cat_url,
          max_pages_to_crawl := src.max_pages_to_crawl,
          max_crawl_depth := src.max_crawl_depth,
          url_exclusion_patterns := src.url_exclusion_patterns,
          link_extraction_selector := none,
          link_extraction_pagination_selector := none }
      { queue := st.queue ++ [(child.id, depth + 1)]
        visited := visited
        db := { sources := st.db.sources ++ [child], nextId := st.db.nextId + 1,
                edges := st.db.edges ++ [(pid, src.id, child.id)] }
        result := { st.result with
          new_sources_created := st.result.new_sources_created + 1 } }

/-- Reasons the per-source page loop stops following pagination. -/
inductive StopReason where
  | pageLimit
  | fetchFailed
  | noNextPage
  | selfLoop
deriving DecidableEq, Repr

/-- The pagination tail of one page iteration: no selector, no matched tag
or no truthy `href` stops the loop (`noNextPage`); a resolved next URL
equal to the current URL stops it (`selfLoop`, the self-loop guard);
otherwise the loop continues at the next URL. -/
def page_pagination (env : CrawlEnv) (page : PageDoc)
    (selectors : SelectorResponse) (current_url : String) :
    StopReason ⊕ String :=
  match selectors.pagination_selector with
  | none => Sum.inl StopReason.noNextPage
  | some psel =>
    match (page.selects psel).head? with
    | some (some href) =>
      if href = "" then Sum.inl StopReason.noNextPage
      else
        if env.resolve current_url href = current_url then
          Sum.inl StopReason.selfLoop
        else Sum.inr (env.resolve current_url href)
    | _ => Sum.inl StopReason.noNextPage

/-- The category-URL set of one page: collected only when the current
depth is below the source's `max_crawl_depth`, else empty. -/
def page_category_urls (env : CrawlEnv) (page : PageDoc) (url : String)
    (patterns : List String) (category_selectors : List String)
    (current_depth max_depth : Nat) : List String :=
  if current_depth < max_depth then
    collect_selector_urls env page url patterns category_selectors
  else []

/-- The content-URL set of one page after `content_urls -= category_urls`:
the collected content URLs minus those also collected as categories. -/
def page_content_urls (env : CrawlEnv) (page : PageDoc) (url : String)
    (patterns : List String) (content_selectors : List String)
    (category_urls : List String) : List String :=
  (collect_selector_urls env page url patterns content_selectors).filter
    (fun u => decide (u ∉ category_urls))

/-- The body of one iteration of the page loop of `_crawl_and_discover`
after a successful fetch: collect the content URLs; collect the category
URLs when the depth allows; execute `content_urls -= category_urls`;
classify the remaining content URLs; and, only on the source's first page
and when the depth allows, process the category URLs into child sources. -/
def crawl_page_body (env : CrawlEnv) (pid : String) (src : ProjectSource)
    (selectors : SelectorResponse) (current_depth : Nat)
    (existing_db_links newly_discovered : List String) (page : PageDoc)
    (current_url : String) (pages_crawled : Nat) (st : CrawlState) :
    CrawlState :=
  let category_urls := page_category_urls env page current_url
    src.url_exclusion_patterns selectors.category_selectors current_depth
    src.max_crawl_depth
  let content_urls := page_content_urls env page current_url
    src.url_exclusion_patterns selectors.content_selectors category_urls
  let st1 : CrawlState :=
    { st with
      result := classify_content_urls existing_db_links
        newly_discovered st.result content_urls }
  if pages_crawled = 1 ∧ current_depth < src.max_crawl_depth then
    category_urls.foldl (process_category_url pid src current_depth) st1
  else st1

/-- The `while current_url and pages_crawled < source.max_pages_to_crawl`
loop of `_crawl_and_discover`.  `fuel` is the number of pages the limit
still allows (`max_pages_to_crawl - pages_before`), so the recursion is
structural exactly because the source loop is bounded; `pages_before` is
`pages_crawled` so far.  Returns the final shared state, the number of
pages fetched by this call, and why the loop stopped.  A fetch failure
halts only this source's remaining pages. -/
def crawl_pages (env : CrawlEnv) (pid : String) (src : ProjectSource)
    (selectors : SelectorResponse) (current_depth : Nat)
    (existing_db_links newly_discovered : List String) :
    Nat → String → Nat → CrawlState → CrawlState × Nat × StopReason
  | 0, _, _, st => (st, 0, StopReason.pageLimit)
  | fuel + 1, current_url, pages_before, st =>
    match env.fetch current_url with
    | none => (st, 0, StopReason.fetchFailed)
    | some page =>
      let st2 := crawl_page_body env pid src selectors current_depth
        existing_db_links newly_discovered page current_url
        (pages_before + 1) st
      match page_pagination env page selectors current_url with
      | Sum.inl reason => (st2, 1, reason)
      | Sum.inr next_page_url =>
        let r := crawl_pages env pid src selectors current_depth
          existing_db_links newly_discovered fuel next_page_url
          (pages_before + 1) st2
        (r.1, r.2.1 + 1, r.2.2)

/-- `_crawl_and_discover` for one dequeued source: run the page loop from
the source's URL with a fresh `CrawlResult` and a page budget of
`max_pages_to_crawl`. -/
def crawl_and_discover (env : CrawlEnv) (project_id : String)
    (source : ProjectSource) (selectors : SelectorResponse)
    (current_depth : Nat) (existing_db_links newly_discovered : List String)
    (queue : List (Nat × Nat)) (visited : List String) (db : CrawlDb) :
    CrawlState × Nat × StopReason :=
  crawl_pages env project_id source selectors current_depth existing_db_links
    newly_discovered source.max_pages_to_crawl source.url 0
    { queue := queue, visited := visited, db := db,
      result := { new_links := [], existing_links := [], new_sources_created := 0 } }

/-- The run-level state of a discover-and-crawl or rescan job. -/
structure JobRunState where
  queue : List (Nat × Nat)
  visited : List String
  db : CrawlDb
  all_new_links : List String
  all_existing_links : List String
  total_new_sources : Nat
  total_selectors_generated : Nat
  failed_source_ids : List Nat
deriving DecidableEq, Repr

/-- One payload source id during job setup: if the source exists, enqueue
it at depth 1 and mark its URL visited. -/
def job_init_step (db : CrawlDb) (st : JobRunState) (sid : Nat) :
    JobRunState :=
  match get_project_source db sid with
  | some s =>
    { st with
      queue := st.queue ++ [(s.id, 1)]
      visited := insertSet s.url st.visited }
  | none => st

/-- The job-state setup shared by `discover_and_crawl_sources` and
`rescan_links`: enqueue each payload source at depth 1 and mark its URL
visited. -/
def job_init_state (db : CrawlDb) (payload_source_ids : List Nat) :
    JobRunState :=
  payload_source_ids.foldl (job_init_step db)
    { queue := [], visited := [], db := db, all_new_links := [],
      all_existing_links := [], total_new_sources := 0,
      total_selectors_generated := 0, failed_source_ids := [] }

/-- `update_project_source` writing the freshly generated selectors back to
the source row. -/
def update_source_selectors (db : CrawlDb) (sid : Nat)
    (sel : SelectorResponse) : CrawlDb :=
  { db with sources := db.sources.map (fun s =>
      if s.id = sid then
        { s with
          link_extraction_selector := some sel.content_selectors
          link_extraction_pagination_selector := sel.pagination_selector }
      else s) }

/-- Merging one `_crawl_and_discover` call's state and result into the run
state (`all_new_links.update(...)`, `all_existing_links.update(...)`,
`total_new_sources += ...`). -/
def merge_crawl_result (st : JobRunState) (cst : CrawlState)
    (selGenerated : Nat) : JobRunState :=
  { queue := cst.queue, visited := cst.visited, db := cst.db,
    all_new_links := cst.result.new_links.foldl
      (fun acc u => insertSet u acc) st.all_new_links,
    all_existing_links := cst.result.existing_links.foldl
      (fun acc u => insertSet u acc) st.all_existing_links,
    total_new_sources := st.total_new_sources + cst.result.new_sources_created,
    total_selectors_generated := st.total_selectors_generated + selGenerated,
    failed_source_ids := st.failed_source_ids }

/-- One iteration of the `discover_and_crawl_sources` BFS loop for a
dequeued `(source_id, depth)`: look the source up (`continue` when gone),
fetch its page and ask the model for selectors (either failure raises and
records the source as failed), store the selectors on the source row, then
crawl and merge. -/
def discover_source_step (env : CrawlEnv) (project_id : String)
    (existing_db_links : List String) (st : JobRunState) (sid : Nat)
    (depth : Nat) : JobRunState :=
  match get_project_source st.db sid with
  | none => st
  | some source =>
    match env.fetch source.url with
    | none => { st with failed_source_ids := st.failed_source_ids ++ [sid] }
    | some _ =>
      match env.genSelectors source with
      | none => { st with failed_source_ids := st.failed_source_ids ++ [sid] }
      | some sel =>
        let db := update_source_selectors st.db source.id sel
        let out := crawl_and_discover env project_id source sel depth
          existing_db_links st.all_new_links st.queue st.visited db
        merge_crawl_result st out.1 1

/-- One iteration of the `rescan_links` loop: skip sources that are gone
or have no stored content selectors (an empty stored list is falsy in
Python and also skips); otherwise crawl with the stored selectors, an
empty category-selector list and the stored pagination selector, with no
model call. -/
def rescan_source_step (env : CrawlEnv) (project_id : String)
    (existing_db_links : List String) (st : JobRunState) (sid : Nat)
    (depth : Nat) : JobRunState :=
  match get_project_source st.db sid with
  | none => st
  | some source =>
    match source.link_extraction_selector with
    | none => st
    | some [] => st
    | some (sel0 :: rest_sels) =>
      let selectors : SelectorResponse :=
        { content_selectors := sel0 :: rest_sels, category_selectors := [],
          pagination_selector := source.link_extraction_pagination_selector }
      let out := crawl_and_discover env project_id source selectors depth
        existing_db_links st.all_new_links st.queue st.visited st.db
      merge_crawl_result st out.1 0

/-- The `while queue:` loop of `discover_and_crawl_sources` (fuelled; the
claims hold for every fuel). -/
def discover_loop (env : CrawlEnv) (project_id : String)
    (existing_db_links : List String) : Nat → JobRunState → JobRunState
  | 0, st => st
  | fuel + 1, st =>
    match st.queue with
    | [] => st
    | (sid, depth) :: rest =>
      discover_loop env project_id existing_db_links fuel
        (discover_source_step env project_id existing_db_links
          { st with queue := rest } sid depth)

/-- The `while queue:` loop of `rescan_links` (fuelled). -/
def rescan_loop (env : CrawlEnv) (project_id : String)
    (existing_db_links : List String) : Nat → JobRunState → JobRunState
  | 0, st => st
  | fuel + 1, st =>
    match st.queue with
    | [] => st
    | (sid, depth) :: rest =>
      rescan_loop env project_id existing_db_links fuel
        (rescan_source_step env project_id existing_db_links
          { st with queue := rest } sid depth)

/-- `sorted(list(s))` on a string set. -/
def sorted_strings (l : List String) : List String :=
  l.insertionSort (fun a b => a ≤ b)

/-- The `DiscoverAndCrawlSourcesResult` written by the finalization phase
of both crawl entry points. -/
structure DiscoverRunResult where
  new_links : List String
  existing_links : List String
  new_sources_created : Nat
  selectors_generated : Nat
  sources_failed : List Nat
deriving DecidableEq, Repr

/-- The full (non-cancelled) `discover_and_crawl_sources` run state. -/
def discover_run (env : CrawlEnv) (db : CrawlDb) (project_id : String)
    (existing_db_links : List String) (payload_source_ids : List Nat)
    (fuel : Nat) : JobRunState :=
  discover_loop env project_id existing_db_links fuel
    (job_init_state db payload_source_ids)

/-- The final result of a non-cancelled `discover_and_crawl_sources` run:
sorted new and existing link lists, counters and failed sources. -/
def discover_and_crawl_sources (env : CrawlEnv) (db : CrawlDb)
    (project_id : String) (existing_db_links : List String)
    (payload_source_ids : List Nat) (fuel : Nat) : DiscoverRunResult :=
  let st := discover_run env db project_id existing_db_links
    payload_source_ids fuel
  { new_links := sorted_strings st.all_new_links,
    existing_links := sorted_strings st.all_existing_links,
    new_sources_created := st.total_new_sources,
    selectors_generated := st.total_selectors_generated,
    sources_failed := st.failed_source_ids }

/-- The full (non-cancelled) `rescan_links` run state. -/
def rescan_run (env : CrawlEnv) (db : CrawlDb) (project_id : String)
    (existing_db_links : List String) (payload_source_ids : List Nat)
    (fuel : Nat) : JobRunState :=
  rescan_loop env project_id existing_db_links fuel
    (job_init_state db payload_source_ids)

/-- The final result of a non-cancelled `rescan_links` run; the source
writes `selectors_generated=0` literally. -/
def rescan_links (env : CrawlEnv) (db : CrawlDb) (project_id : String)
    (existing_db_links : List String) (payload_source_ids : List Nat)
    (fuel : Nat) : DiscoverRunResult :=
  let st := rescan_run env db project_id existing_db_links
    payload_source_ids fuel
  { new_links := sorted_strings st.all_new_links,
    existing_links := sorted_strings st.all_existing_links,
    new_sources_created := st.total_new_sources,
    selectors_generated := 0,
    sources_failed := st.failed_source_ids }

end World2

namespace World2

/-- C6: `cancel_job` transitions a pending job immediately to `canceled`,
an `in_progress` job to `cancelling`, and for a job already in a terminal
state (`completed`, `failed`, `canceled`) it fails with an error while
leaving the stored status unchanged, so no transition out of a terminal
state is possible through it. -/
theorem cancel_job_transitions (s : JobStatus) :
    (s = JobStatus.pending →
      cancel_job (some s)
        = (CancelOutcome.updated JobStatus.canceled, some JobStatus.canceled)) ∧
    (s = JobStatus.in_progress →
      cancel_job (some s)
        = (CancelOutcome.updated JobStatus.cancelling, some JobStatus.cancelling)) ∧
    ((s = JobStatus.completed ∨ s = JobStatus.failed ∨ s = JobStatus.canceled) →
      cancel_job (some s) = (CancelOutcome.terminalError s, some s)) := by
  cases s <;> simp [cancel_job]

/-- Witness for C6 at the three concrete inputs `pending`, `in_progress`
and `completed`. -/
theorem cancel_job_transitions_witness :
    cancel_job (some JobStatus.pending)
      = (CancelOutcome.updated JobStatus.canceled, some JobStatus.canceled) ∧
    cancel_job (some JobStatus.in_progress)
      = (CancelOutcome.updated JobStatus.cancelling, some JobStatus.cancelling) ∧
    cancel_job (some JobStatus.completed)
      = (CancelOutcome.terminalError JobStatus.completed, some JobStatus.completed) :=
  ⟨(cancel_job_transitions JobStatus.pending).1 rfl,
   (cancel_job_transitions JobStatus.in_progress).2.1 rfl,
   (cancel_job_transitions JobStatus.completed).2.2 (Or.inl rfl)⟩

/-- C7: the startup recovery pass maps every job row whose status is
`in_progress` or `cancelling` to the same row with status `pending`, and
leaves every other row, and every non-status field of every row, unchanged;
the analogous reset applies to `Link` rows in `processing`. -/
theorem recovery_pass_frame (rows : List DbJobRow) (links : List LinkRow) :
    List.Forall₂ (fun old new =>
      new.status =
        (if old.status = JobStatus.in_progress ∨ old.status = JobStatus.cancelling
          then JobStatus.pending else old.status) ∧
      new.id = old.id ∧ new.task_name = old.task_name ∧
      new.project_id = old.project_id ∧ new.payload = old.payload ∧
      new.result = old.result ∧ new.error_message = old.error_message ∧
      new.total_items = old.total_items ∧
      new.processed_items = old.processed_items ∧ new.progress = old.progress ∧
      new.created_at = old.created_at ∧ new.updated_at = old.updated_at)
      rows (reset_in_progress_jobs_to_pending rows) ∧
    List.Forall₂ (fun old new =>
      new.status =
        (if old.status = LinkStatus.processing then LinkStatus.pending
          else old.status) ∧
      new.id = old.id ∧ new.project_id = old.project_id ∧ new.url = old.url ∧
      new.lorebook_entry_id = old.lorebook_entry_id)
      links (reset_processing_links_to_pending links) := by
  constructor
  · rw [reset_in_progress_jobs_to_pending, List.forall₂_map_right_iff]
    rw [List.forall₂_same]
    intro r _
    by_cases h : r.status = JobStatus.in_progress ∨ r.status = JobStatus.cancelling <;>
      simp [h]
  · rw [reset_processing_links_to_pending, List.forall₂_map_right_iff]
    rw [List.forall₂_same]
    intro l _
    by_cases h : l.status = LinkStatus.processing <;> simp [h]

/-- C5: when cancellation was observed, the finalization of
`process_project_entries` marks the job `canceled` and resets every link of
the project that is in status `processing` back to `pending`, so afterwards
no link of that project is left in status `processing`. -/
theorem cancelled_finalize_clears_processing (project_id : String)
    (c s f : Nat) (links : List LinkRow) :
    (process_entries_finalize true project_id c s f links).jobStatus
      = JobStatus.canceled ∧
    ∀ l ∈ (process_entries_finalize true project_id c s f links).links,
      l.project_id = project_id → l.status ≠ LinkStatus.processing := by
  refine ⟨rfl, ?_⟩
  intro l hl hproj
  simp only [process_entries_finalize, if_pos trivial, sql_reset_processing_links,
    List.mem_map] at hl
  obtain ⟨x, _, hfx⟩ := hl
  by_cases hc : x.project_id = project_id ∧ x.status = LinkStatus.processing
  · rw [if_pos hc] at hfx
    rw [← hfx]
    simp
  · rw [if_neg hc] at hfx
    subst hfx
    intro habs
    exact hc ⟨hproj, habs⟩

/-- Witness for C5: one `processing` link of project `p` is reset, and after
finalization the job is `canceled` and that link is no longer `processing`. -/
theorem cancelled_finalize_clears_processing_witness :
    (process_entries_finalize true "p" 0 0 0
        [⟨1, "p", "u", LinkStatus.processing, none⟩]).jobStatus
      = JobStatus.canceled ∧
    (⟨1, "p", "u", LinkStatus.pending, none⟩ : LinkRow).status
      ≠ LinkStatus.processing :=
  ⟨(cancelled_finalize_clears_processing "p" 0 0 0
      [⟨1, "p", "u", LinkStatus.processing, none⟩]).1,
   (cancelled_finalize_clears_processing "p" 0 0 0
      [⟨1, "p", "u", LinkStatus.processing, none⟩]).2
      ⟨1, "p", "u", LinkStatus.pending, none⟩ (by decide) rfl⟩

/-- C2: `claim_next_pending` hands a given pending job to exactly one
caller: the claimed job's status flips to `in_progress` in the same atomic
step (both in the returned job and in the stored table), and a subsequent
claim — which is how concurrent callers are serialized by the row-level
lock — can never return the same job again. -/
theorem claim_next_pending_exclusive (jobs : List QueueJob) (j1 : QueueJob)
    (s1 : List QueueJob) (h1 : claim_next_pending jobs = (some j1, s1)) :
    j1.status = JobStatus.in_progress ∧
    (∀ x ∈ s1, x.jid = j1.jid → x.status = JobStatus.in_progress) ∧
    (∀ j2 s2, claim_next_pending s1 = (some j2, s2) → j2.jid ≠ j1.jid) := by
  cases hop : oldest_pending jobs with
  | none => simp [claim_next_pending, hop] at h1
  | some j =>
    simp only [claim_next_pending, hop, Prod.mk.injEq, Option.some.injEq] at h1
    obtain ⟨hj1, hs1⟩ := h1
    have hb : ∀ x ∈ s1, x.jid = j1.jid → x.status = JobStatus.in_progress := by
      intro x hx hxid
      rw [← hs1] at hx
      obtain ⟨y, _, hfy⟩ := List.mem_map.mp hx
      by_cases hyid : y.jid = j.jid
      · rw [if_pos hyid] at hfy
        rw [← hfy]
      · rw [if_neg hyid] at hfy
        subst hfy
        rw [← hj1] at hxid
        exact absurd hxid hyid
    refine ⟨by rw [← hj1], hb, ?_⟩
    intro j2 s2 h2 habs
    cases hop2 : oldest_pending s1 with
    | none => simp [claim_next_pending, hop2] at h2
    | some j2a =>
      simp only [claim_next_pending, hop2, Prod.mk.injEq, Option.some.injEq] at h2
      obtain ⟨hj2, _⟩ := h2
      obtain ⟨hmem, hpend⟩ := oldest_pending_spec s1 j2a hop2
      have : j2a.status = JobStatus.in_progress := by
        refine hb j2a hmem ?_
        rw [← habs, ← hj2]
      rw [hpend] at this
      exact absurd this (by decide)

/-- Witness for C2: a table of two pending jobs; the first claim takes job 1
and the second claim takes a different job. -/
theorem claim_next_pending_exclusive_witness :
    (claim_next_pending
        [⟨1, JobStatus.pending, 0⟩, ⟨2, JobStatus.pending, 1⟩]).1
      = some ⟨1, JobStatus.in_progress, 0⟩ ∧
    (⟨2, JobStatus.in_progress, 1⟩ : QueueJob).jid
      ≠ (⟨1, JobStatus.in_progress, 0⟩ : QueueJob).jid :=
  ⟨rfl,
   (claim_next_pending_exclusive
      [⟨1, JobStatus.pending, 0⟩, ⟨2, JobStatus.pending, 1⟩]
      ⟨1, JobStatus.in_progress, 0⟩
      [⟨1, JobStatus.in_progress, 0⟩, ⟨2, JobStatus.pending, 1⟩] rfl).2.2
      ⟨2, JobStatus.in_progress, 1⟩
      [⟨1, JobStatus.in_progress, 0⟩, ⟨2, JobStatus.in_progress, 1⟩] rfl⟩

theorem entries_shape_step (n : Nat) (st : EntriesLoopState) (o : LinkOutcome) :
    entries_shape (entries_loop_step n st o)
      = entries_step_shape n (entries_shape st) := by
  simp only [entries_loop_step, entries_step_shape, entries_shape,
    List.length_append, List.length_cons, List.length_nil]
  split <;> simp

theorem entries_shape_foldl (n : Nat) (outcomes : List LinkOutcome)
    (st : EntriesLoopState) :
    entries_shape (outcomes.foldl (entries_loop_step n) st)
      = entries_iter_shape n outcomes.length (entries_shape st) := by
  induction outcomes generalizing st with
  | nil => rfl
  | cons o os ih =>
    simp only [List.foldl_cons, List.length_cons, entries_iter_shape]
    rw [ih, entries_shape_step]

theorem entries_loop_invariant (n : Nat) (outcomes : List LinkOutcome)
    (st : EntriesLoopState) :
    let fin := outcomes.foldl (entries_loop_step n) st
    fin.total_processed + fin.batch.length
        = st.total_processed + st.batch.length + outcomes.length ∧
    fin.total_created + fin.batch.count LinkOutcome.created
        = st.total_created + st.batch.count LinkOutcome.created
          + outcomes.count LinkOutcome.created ∧
    fin.total_skipped + fin.batch.count LinkOutcome.skipped
        = st.total_skipped + st.batch.count LinkOutcome.skipped
          + outcomes.count LinkOutcome.skipped ∧
    fin.total_failed + fin.batch.count LinkOutcome.failed
        = st.total_failed + st.batch.count LinkOutcome.failed
          + outcomes.count LinkOutcome.failed := by
  induction outcomes generalizing st with
  | nil => simp
  | cons o os ih =>
    simp only [List.foldl_cons, List.count_cons, List.length_cons]
    have h := ih (entries_loop_step n st o)
    simp only at h
    obtain ⟨h1, h2, h3, h4⟩ := h
    refine ⟨?_, ?_, ?_, ?_⟩ <;>
      · first
        | (rw [h1]; simp only [entries_loop_step]; split <;>
            simp [process_db_batch, List.count_append] <;> omega)
        | (rw [h2]; simp only [entries_loop_step]; split <;>
            simp [process_db_batch, List.count_append, List.count_cons] <;> omega)
        | (rw [h3]; simp only [entries_loop_step]; split <;>
            simp [process_db_batch, List.count_append, List.count_cons] <;> omega)
        | (rw [h4]; simp only [entries_loop_step]; split <;>
            simp [process_db_batch, List.count_append, List.count_cons] <;> omega)

theorem count_linkoutcomes_sum (l : List LinkOutcome) :
    l.count LinkOutcome.created + l.count LinkOutcome.skipped
      + l.count LinkOutcome.failed = l.length := by
  induction l with
  | nil => rfl
  | cons x xs ih => cases x <;> simp [List.count_cons] <;> omega

theorem entries_loop_final_flush (outcomes : List LinkOutcome) :
    (process_project_entries_loop outcomes.length outcomes).batch = [] ∧
    (process_project_entries_loop outcomes.length outcomes).total_processed
      = outcomes.length := by
  rcases List.eq_nil_or_concat outcomes with rfl | ⟨xs, x, rfl⟩
  · exact ⟨rfl, rfl⟩
  · simp only [List.concat_eq_append]
    set n := (xs ++ [x]).length with hn
    have hlen : n = xs.length + 1 := by rw [hn]; simp
    have hinv := entries_loop_invariant n xs entries_loop_init
    obtain ⟨h1, -, -, -⟩ := hinv
    set st := xs.foldl (entries_loop_step n) entries_loop_init with hst
    have h1a : st.total_processed + st.batch.length = xs.length := by
      simpa [entries_loop_init] using h1
    rw [process_project_entries_loop, List.foldl_append, List.foldl_cons,
      List.foldl_nil]
    rw [← hst]
    simp only [entries_loop_step]
    have hcond : DB_WRITE_BATCH_SIZE ≤ (st.batch ++ [x]).length ∨
        st.total_processed + (st.batch ++ [x]).length = n := by
      right
      simp only [List.length_append, List.length_cons, List.length_nil]
      omega
    rw [if_pos hcond]
    refine ⟨rfl, ?_⟩
    show st.total_processed + (st.batch ++ [x]).length = n
    simp only [List.length_append, List.length_cons, List.length_nil]
    omega

theorem entries_loop_batch_bound (n : Nat) (outcomes : List LinkOutcome)
    (st : EntriesLoopState)
    (hb : st.batch.length + 1 ≤ DB_WRITE_BATCH_SIZE)
    (hs : ∀ b ∈ st.batchSizes, b ≤ DB_WRITE_BATCH_SIZE) :
    (outcomes.foldl (entries_loop_step n) st).batch.length + 1
        ≤ DB_WRITE_BATCH_SIZE ∧
    ∀ b ∈ (outcomes.foldl (entries_loop_step n) st).batchSizes,
      b ≤ DB_WRITE_BATCH_SIZE := by
  induction outcomes generalizing st with
  | nil => exact ⟨hb, hs⟩
  | cons o os ih =>
    simp only [List.foldl_cons]
    apply ih
    · simp only [entries_loop_step]
      split
      · simp [DB_WRITE_BATCH_SIZE]
      · rename_i hcond
        simp only [List.length_append, List.length_cons, List.length_nil,
          DB_WRITE_BATCH_SIZE, not_or] at hcond ⊢
        omega
    · simp only [entries_loop_step]
      split
      · intro b hbmem
        simp only [List.mem_append, List.mem_singleton] at hbmem
        rcases hbmem with hold | hnew
        · exact hs b hold
        · simp only [List.length_append, List.length_cons, List.length_nil] at hnew
          omega
      · exact hs

set_option maxRecDepth 8000 in
/-- C3: in a non-cancelled run of `process_project_entries` over `n`
selected links, each link contributes exactly one outcome to the totals
(the totals equal the outcome counts of the completion-ordered outcome
list), so `entries_created + entries_skipped + entries_failed = n`; the
outcomes are committed in batches of at most `DB_WRITE_BATCH_SIZE = 10`
(one transaction each), job progress is updated after every committed
batch, and for `n = 25` the progress updates occur exactly after 10, 20
and 25 processed items, whatever order the futures complete in. -/
theorem process_entries_outcome_accounting (outcomes : List LinkOutcome) :
    (process_project_entries_loop outcomes.length outcomes).total_created
        = outcomes.count LinkOutcome.created ∧
    (process_project_entries_loop outcomes.length outcomes).total_skipped
        = outcomes.count LinkOutcome.skipped ∧
    (process_project_entries_loop outcomes.length outcomes).total_failed
        = outcomes.count LinkOutcome.failed ∧
    (process_project_entries_loop outcomes.length outcomes).total_created
        + (process_project_entries_loop outcomes.length outcomes).total_skipped
        + (process_project_entries_loop outcomes.length outcomes).total_failed
        = outcomes.length ∧
    (∀ b ∈ (process_project_entries_loop outcomes.length outcomes).batchSizes,
      b ≤ DB_WRITE_BATCH_SIZE) ∧
    (outcomes.length = 25 →
      (process_project_entries_loop outcomes.length outcomes).progressUpdates
        = [10, 20, 25]) := by
  obtain ⟨hbe, -⟩ := entries_loop_final_flush outcomes
  have hinv := entries_loop_invariant outcomes.length outcomes entries_loop_init
  obtain ⟨-, h2, h3, h4⟩ := hinv
  rw [process_project_entries_loop] at hbe
  set F := outcomes.foldl (entries_loop_step outcomes.length) entries_loop_init
    with hF
  rw [hbe] at h2 h3 h4
  have hc : (process_project_entries_loop outcomes.length outcomes).total_created
      = outcomes.count LinkOutcome.created := by
    rw [process_project_entries_loop, ← hF]
    simpa [entries_loop_init] using h2
  have hsk : (process_project_entries_loop outcomes.length outcomes).total_skipped
      = outcomes.count LinkOutcome.skipped := by
    rw [process_project_entries_loop, ← hF]
    simpa [entries_loop_init] using h3
  have hf : (process_project_entries_loop outcomes.length outcomes).total_failed
      = outcomes.count LinkOutcome.failed := by
    rw [process_project_entries_loop, ← hF]
    simpa [entries_loop_init] using h4
  refine ⟨hc, hsk, hf, ?_, ?_, ?_⟩
  · rw [hc, hsk, hf]
    exact count_linkoutcomes_sum outcomes
  · rw [process_project_entries_loop]
    exact (entries_loop_batch_bound outcomes.length outcomes entries_loop_init
      (by simp [entries_loop_init, DB_WRITE_BATCH_SIZE]) (by simp [entries_loop_init])).2
  · intro h25
    have hshape := entries_shape_foldl outcomes.length outcomes entries_loop_init
    rw [h25] at hshape ⊢
    have hiter : entries_iter_shape 25 25 (entries_shape entries_loop_init)
        = (0, 25, [10, 20, 25]) := by decide
    have hfin : entries_shape (process_project_entries_loop 25 outcomes)
        = (0, 25, [10, 20, 25]) := by
      rw [process_project_entries_loop, hshape, hiter]
    have := congrArg (fun p => p.2.2) hfin
    simpa [entries_shape] using this

/-- Witness for C3: 25 outcomes (all successes) give
`created + skipped + failed = 25` and progress updates after 10, 20 and 25
processed items. -/
theorem process_entries_outcome_accounting_witness :
    (process_project_entries_loop (List.replicate 25 LinkOutcome.created).length
        (List.replicate 25 LinkOutcome.created)).total_created
      + (process_project_entries_loop (List.replicate 25 LinkOutcome.created).length
          (List.replicate 25 LinkOutcome.created)).total_skipped
      + (process_project_entries_loop (List.replicate 25 LinkOutcome.created).length
          (List.replicate 25 LinkOutcome.created)).total_failed
      = (List.replicate 25 LinkOutcome.created).length ∧
    (process_project_entries_loop (List.replicate 25 LinkOutcome.created).length
        (List.replicate 25 LinkOutcome.created)).progressUpdates
      = [10, 20, 25] :=
  ⟨(process_entries_outcome_accounting
      (List.replicate 25 LinkOutcome.created)).2.2.2.1,
   (process_entries_outcome_accounting
      (List.replicate 25 LinkOutcome.created)).2.2.2.2.2 (by decide)⟩

/-- C4: evaluation of `_deserialize_job` at a failing input.  For a
`CONFIRM_LINKS` row whose stored payload fails validation (`urls` holds a
number), the code degrades the payload to `None`, and the final
`BackgroundJob(**db_row)` construction then raises `ValidationError`
because `payload` is a required non-Optional field — the row becomes
unreadable, contradicting the claim that a `BackgroundJob` is always
returned with the affected field degraded.  By contrast a decode failure
of the `result` field does degrade gracefully to `None` (second conjunct),
and decoding is keyed by the row's `task_name` — a `RESCAN_LINKS` row
decodes its payload with `DiscoverAndCrawlSourcesPayload` (third
conjunct). -/
theorem deserialize_job_payload_failure_raises :
    deserialize_job
      { id := 1, task_name := TaskName.CONFIRM_LINKS, project_id := "p",
        payload := some (Json.obj [("urls", Json.num 5)]),
        status := JobStatus.completed, result := none, error_message := none,
        total_items := none, processed_items := none, progress := none,
        created_at := 0, updated_at := 0 }
      = Except.error
          "ValidationError: payload is a required field of BackgroundJob" ∧
    deserialize_job
      { id := 2, task_name := TaskName.CONFIRM_LINKS, project_id := "p",
        payload := some (Json.obj [("urls", Json.arr [Json.str "u"])]),
        status := JobStatus.completed,
        result := some (Json.obj [("links_saved", Json.str "oops")]),
        error_message := none, total_items := none, processed_items := none,
        progress := none, created_at := 0, updated_at := 0 }
      = Except.ok
        { id := 2, task_name := TaskName.CONFIRM_LINKS, project_id := "p",
          payload := TaskPayload.confirmLinks ["u"],
          status := JobStatus.completed, result := none, error_message := none,
          total_items := none, processed_items := none, progress := none,
          created_at := 0, updated_at := 0 } ∧
    deserialize_job
      { id := 3, task_name := TaskName.RESCAN_LINKS, project_id := "p",
        payload := some (Json.obj [("source_ids", Json.arr [Json.str "s1"])]),
        status := JobStatus.pending, result := none, error_message := none,
        total_items := none, processed_items := none, progress := none,
        created_at := 0, updated_at := 0 }
      = Except.ok
        { id := 3, task_name := TaskName.RESCAN_LINKS, project_id := "p",
          payload := TaskPayload.discoverAndCrawlSources ["s1"],
          status := JobStatus.pending, result := none, error_message := none,
          total_items := none, processed_items := none, progress := none,
          created_at := 0, updated_at := 0 } :=
  ⟨rfl, rfl, rfl⟩

/-- A page on which one URL is matched by both the content selector and the
category selector. -/
def c1_page : PageDoc :=
  ⟨fun sel =>
    if sel = "a.content" then [some "both"]
    else if sel = "a.category" then [some "both"]
    else []⟩

/-- Environment serving `c1_page` at URL `p1`; hrefs are already absolute. -/
def c1_env : CrawlEnv :=
  { fetch := fun u => if u = "p1" then some c1_page else none
    resolve := fun _ href => href
    matchesPattern := fun _ _ => false
    genSelectors := fun _ => none }

/-- The crawled source for the C1 evaluation. -/
def c1_source : ProjectSource :=
  { id := 10, project_id := "proj", url := "p1", max_pages_to_crawl := 1,
    max_crawl_depth := 2, url_exclusion_patterns := [],
    link_extraction_selector := none,
    link_extraction_pagination_selector := none }

/-- C1: evaluation of `_crawl_and_discover` on a page where the URL `both`
is selected by both the content and the category selectors.  The code
executes `content_urls -= category_urls`, which removes `both` from the
content set and keeps it in the category set — the opposite of the claim
(and of the code's own comment "Ensure content links are not also treated
as categories"): `both` is classified neither as a new nor as an existing
content link (`result.new_links` and `result.existing_links` are empty),
and instead a child source is created from it (`new_sources_created = 1`,
a hierarchy edge is recorded and it is enqueued). -/
theorem content_category_precedence_bug :
    (crawl_and_discover c1_env "proj" c1_source
        ⟨["a.content"], ["a.category"], none⟩ 1 [] [] [] ["p1"]
        ⟨[c1_source], 11, []⟩).1.result
      = ⟨[], [], 1⟩ ∧
    (crawl_and_discover c1_env "proj" c1_source
        ⟨["a.content"], ["a.category"], none⟩ 1 [] [] [] ["p1"]
        ⟨[c1_source], 11, []⟩).1.queue = [(11, 2)] ∧
    (crawl_and_discover c1_env "proj" c1_source
        ⟨["a.content"], ["a.category"], none⟩ 1 [] [] [] ["p1"]
        ⟨[c1_source], 11, []⟩).1.db.edges = [("proj", 10, 11)] := by
  refine ⟨?_, ?_, ?_⟩ <;> rfl

theorem page_pagination_stop_cases (env : CrawlEnv) (page : PageDoc)
    (selectors : SelectorResponse) (url : String) :
    page_pagination env page selectors url ≠ Sum.inl StopReason.pageLimit ∧
    page_pagination env page selectors url ≠ Sum.inl StopReason.fetchFailed := by
  unfold page_pagination
  constructor <;>
    · split
      · simp
      · split
        · split
          · simp
          · split <;> simp
        · simp

theorem crawl_pages_count (env : CrawlEnv) (pid : String)
    (src : ProjectSource) (selectors : SelectorResponse) (depth : Nat)
    (existing newly : List String) :
    ∀ fuel url pages st,
      (crawl_pages env pid src selectors depth existing newly
          fuel url pages st).2.1 ≤ fuel ∧
      ((crawl_pages env pid src selectors depth existing newly
          fuel url pages st).2.2 = StopReason.pageLimit →
        (crawl_pages env pid src selectors depth existing newly
          fuel url pages st).2.1 = fuel) ∧
      (selectors.pagination_selector = none →
        (crawl_pages env pid src selectors depth existing newly
          fuel url pages st).2.1 ≤ 1) := by
  intro fuel
  induction fuel with
  | zero =>
    intro url pages st
    exact ⟨Nat.le_refl 0, fun _ => rfl, fun _ => Nat.zero_le 1⟩
  | succ n ih =>
    intro url pages st
    simp only [crawl_pages]
    cases hf : env.fetch url with
    | none =>
      refine ⟨Nat.zero_le _, ?_, fun _ => Nat.zero_le 1⟩
      intro habs
      exact absurd habs (by simp)
    | some page =>
      cases hpp : page_pagination env page selectors url with
      | inl reason =>
        simp only [hpp]
        refine ⟨Nat.succ_le_succ (Nat.zero_le n), ?_, fun _ => Nat.le_refl 1⟩
        intro hr
        exact absurd (hr ▸ hpp)
          (page_pagination_stop_cases env page selectors url).1
      | inr next_url =>
        simp only [hpp]
        obtain ⟨ih1, ih2, -⟩ := ih next_url (pages + 1) _
        refine ⟨Nat.succ_le_succ ih1, ?_, ?_⟩
        · intro hr
          rw [ih2 hr]
        · intro hnone
          exfalso
          unfold page_pagination at hpp
          rw [hnone] at hpp
          exact absurd hpp (by simp)

/-- C9: the per-source pagination loop of `_crawl_and_discover` fetches at
most `max_pages_to_crawl` pages and always terminates (the loop variable is
the remaining page budget); a stop with reason `pageLimit` means exactly
the page-count limit was reached, the other stop reasons are a page-fetch
failure (which halts only this source's remaining pages), a pagination
selector yielding no next-page element or href, and a resolved next-page
URL equal to the current page URL (self-loop guard); without a pagination
selector at most one page is fetched. -/
theorem pagination_loop_bounded (env : CrawlEnv) (pid : String)
    (src : ProjectSource) (selectors : SelectorResponse) (depth : Nat)
    (existing newly : List String) (queue : List (Nat × Nat))
    (visited : List String) (db : CrawlDb) :
    (crawl_and_discover env pid src selectors depth existing newly queue
        visited db).2.1 ≤ src.max_pages_to_crawl ∧
    ((crawl_and_discover env pid src selectors depth existing newly queue
        visited db).2.2 = StopReason.pageLimit →
      (crawl_and_discover env pid src selectors depth existing newly queue
        visited db).2.1 = src.max_pages_to_crawl) ∧
    (selectors.pagination_selector = none →
      (crawl_and_discover env pid src selectors depth existing newly queue
        visited db).2.1 ≤ 1) := by
  unfold crawl_and_discover
  exact crawl_pages_count env pid src selectors depth existing newly
    src.max_pages_to_crawl src.url 0 _

/-- Witness for C9 at a concrete source whose page budget is 0 and whose
selectors have no pagination selector. -/
theorem pagination_loop_bounded_witness :
    (crawl_and_discover ⟨fun _ => none, fun _ h => h, fun _ _ => false,
        fun _ => none⟩ "p" ⟨1, "p", "u", 0, 0, [], none, none⟩
        ⟨[], [], none⟩ 1 [] [] [] [] ⟨[], 0, []⟩).2.1 = 0 ∧
    (crawl_and_discover ⟨fun _ => none, fun _ h => h, fun _ _ => false,
        fun _ => none⟩ "p" ⟨1, "p", "u", 0, 0, [], none, none⟩
        ⟨[], [], none⟩ 1 [] [] [] [] ⟨[], 0, []⟩).2.1 ≤ 1 :=
  ⟨(pagination_loop_bounded ⟨fun _ => none, fun _ h => h, fun _ _ => false,
      fun _ => none⟩ "p" ⟨1, "p", "u", 0, 0, [], none, none⟩
      ⟨[], [], none⟩ 1 [] [] [] [] ⟨[], 0, []⟩).2.1 rfl,
   (pagination_loop_bounded ⟨fun _ => none, fun _ h => h, fun _ _ => false,
      fun _ => none⟩ "p" ⟨1, "p", "u", 0, 0, [], none, none⟩
      ⟨[], [], none⟩ 1 [] [] [] [] ⟨[], 0, []⟩).2.2 rfl⟩

theorem classify_cons (existing newly : List String) (res : CrawlResult)
    (u : String) (rest : List String) :
    classify_content_urls existing newly res (u :: rest)
      = classify_content_urls existing newly
          (if u ∈ existing then
            { res with existing_links := insertSet u res.existing_links }
          else if u ∈ newly then res
          else { res with new_links := insertSet u res.new_links }) rest := rfl

theorem classify_preserves_sources (existing newly : List String)
    (res : CrawlResult) (urls : List String) :
    (classify_content_urls existing newly res urls).new_sources_created
      = res.new_sources_created := by
  induction urls generalizing res with
  | nil => rfl
  | cons u rest ih =>
    rw [classify_cons, ih]
    by_cases h1 : u ∈ existing
    · simp [h1]
    · by_cases h2 : u ∈ newly
      · simp [h1, h2]
      · simp [h1, h2]

theorem crawl_page_body_no_categories (env : CrawlEnv) (pid : String)
    (src : ProjectSource) (selectors : SelectorResponse) (depth : Nat)
    (existing newly : List String) (page : PageDoc) (url : String)
    (pages : Nat) (st : CrawlState)
    (hcat : selectors.category_selectors = []) :
    (crawl_page_body env pid src selectors depth existing newly page url
        pages st).queue = st.queue ∧
    (crawl_page_body env pid src selectors depth existing newly page url
        pages st).visited = st.visited ∧
    (crawl_page_body env pid src selectors depth existing newly page url
        pages st).db = st.db ∧
    (crawl_page_body env pid src selectors depth existing newly page url
        pages st).result.new_sources_created
      = st.result.new_sources_created := by
  unfold crawl_page_body
  have hcats : page_category_urls env page url src.url_exclusion_patterns
      selectors.category_selectors depth src.max_crawl_depth = [] := by
    rw [hcat]
    unfold page_category_urls
    split <;> rfl
  rw [hcats]
  simp only [List.foldl_nil, ite_self]
  refine ⟨?_, ?_, ?_, ?_⟩ <;>
    first
      | rfl
      | trivial
      | exact classify_preserves_sources existing newly st.result _

theorem crawl_pages_no_categories (env : CrawlEnv) (pid : String)
    (src : ProjectSource) (selectors : SelectorResponse) (depth : Nat)
    (existing newly : List String)
    (hcat : selectors.category_selectors = []) :
    ∀ fuel url pages st,
      (crawl_pages env pid src selectors depth existing newly
          fuel url pages st).1.queue = st.queue ∧
      (crawl_pages env pid src selectors depth existing newly
          fuel url pages st).1.visited = st.visited ∧
      (crawl_pages env pid src selectors depth existing newly
          fuel url pages st).1.db = st.db ∧
      (crawl_pages env pid src selectors depth existing newly
          fuel url pages st).1.result.new_sources_created
        = st.result.new_sources_created := by
  intro fuel
  induction fuel with
  | zero => intro url pages st; exact ⟨rfl, rfl, rfl, rfl⟩
  | succ n ih =>
    intro url pages st
    simp only [crawl_pages]
    cases hf : env.fetch url with
    | none => exact ⟨rfl, rfl, rfl, rfl⟩
    | some page =>
      obtain ⟨b1, b2, b3, b4⟩ := crawl_page_body_no_categories env pid src
        selectors depth existing newly page url (pages + 1) st hcat
      cases hpp : page_pagination env page selectors url with
      | inl reason =>
        simp only [hpp]
        exact ⟨b1, b2, b3, b4⟩
      | inr next_url =>
        simp only [hpp]
        obtain ⟨i1, i2, i3, i4⟩ := ih next_url (pages + 1)
          (crawl_page_body env pid src selectors depth existing newly page
            url (pages + 1) st)
        exact ⟨i1.trans b1, i2.trans b2, i3.trans b3, i4.trans b4⟩

theorem job_init_step_frame (db : CrawlDb) (st : JobRunState) (sid : Nat) :
    (job_init_step db st sid).db = st.db ∧
    (job_init_step db st sid).all_new_links = st.all_new_links ∧
    (job_init_step db st sid).all_existing_links = st.all_existing_links ∧
    (job_init_step db st sid).total_new_sources = st.total_new_sources ∧
    (job_init_step db st sid).total_selectors_generated
      = st.total_selectors_generated ∧
    (job_init_step db st sid).failed_source_ids = st.failed_source_ids := by
  unfold job_init_step
  cases get_project_source db sid with
  | none => exact ⟨rfl, rfl, rfl, rfl, rfl, rfl⟩
  | some s => exact ⟨rfl, rfl, rfl, rfl, rfl, rfl⟩

theorem job_init_fold_frame (db : CrawlDb) (ids : List Nat)
    (st0 : JobRunState) :
    (ids.foldl (job_init_step db) st0).db = st0.db ∧
    (ids.foldl (job_init_step db) st0).all_new_links = st0.all_new_links ∧
    (ids.foldl (job_init_step db) st0).all_existing_links
      = st0.all_existing_links ∧
    (ids.foldl (job_init_step db) st0).total_new_sources
      = st0.total_new_sources ∧
    (ids.foldl (job_init_step db) st0).total_selectors_generated
      = st0.total_selectors_generated ∧
    (ids.foldl (job_init_step db) st0).failed_source_ids
      = st0.failed_source_ids := by
  induction ids generalizing st0 with
  | nil => exact ⟨rfl, rfl, rfl, rfl, rfl, rfl⟩
  | cons x xs ih =>
    simp only [List.foldl_cons]
    obtain ⟨f1, f2, f3, f4, f5, f6⟩ := job_init_step_frame db st0 x
    obtain ⟨g1, g2, g3, g4, g5, g6⟩ := ih (job_init_step db st0 x)
    exact ⟨g1.trans f1, g2.trans f2, g3.trans f3, g4.trans f4,
      g5.trans f5, g6.trans f6⟩

theorem job_init_state_frame (db : CrawlDb) (ids : List Nat) :
    (job_init_state db ids).db = db ∧
    (job_init_state db ids).all_new_links = [] ∧
    (job_init_state db ids).all_existing_links = [] ∧
    (job_init_state db ids).total_new_sources = 0 ∧
    (job_init_state db ids).total_selectors_generated = 0 ∧
    (job_init_state db ids).failed_source_ids = [] := by
  unfold job_init_state
  exact job_init_fold_frame db ids _

theorem rescan_source_step_frame (env : CrawlEnv) (project_id : String)
    (existing : List String) (st : JobRunState) (sid : Nat) (depth : Nat) :
    (rescan_source_step env project_id existing st sid depth).db = st.db ∧
    (rescan_source_step env project_id existing st sid depth).queue
      = st.queue ∧
    (rescan_source_step env project_id existing st sid depth).total_new_sources
      = st.total_new_sources ∧
    (rescan_source_step env project_id existing st sid
        depth).total_selectors_generated
      = st.total_selectors_generated := by
  unfold rescan_source_step
  split
  · exact ⟨rfl, rfl, rfl, rfl⟩
  · rename_i source heq
    split
    · exact ⟨rfl, rfl, rfl, rfl⟩
    · exact ⟨rfl, rfl, rfl, rfl⟩
    · rename_i s ss hsel
      obtain ⟨hq, -, hd, hs⟩ := crawl_pages_no_categories env project_id
        source ⟨s :: ss, [], source.link_extraction_pagination_selector⟩
        depth existing st.all_new_links rfl
        source.max_pages_to_crawl source.url 0
        ⟨st.queue, st.visited, st.db, ⟨[], [], 0⟩⟩
      simp only [crawl_and_discover, merge_crawl_result]
      refine ⟨hd.trans rfl, hq.trans rfl, ?_, by simp⟩
      rw [hs]
      simp

theorem rescan_loop_frame (env : CrawlEnv) (project_id : String)
    (existing : List String) :
    ∀ fuel st,
      (rescan_loop env project_id existing fuel st).db = st.db ∧
      (rescan_loop env project_id existing fuel st).total_new_sources
        = st.total_new_sources ∧
      (rescan_loop env project_id existing fuel st).total_selectors_generated
        = st.total_selectors_generated ∧
      (rescan_loop env project_id existing fuel st).queue <:+ st.queue := by
  intro fuel
  induction fuel with
  | zero => intro st; exact ⟨rfl, rfl, rfl, List.suffix_refl _⟩
  | succ n ih =>
    intro st
    simp only [rescan_loop]
    split
    · rename_i heq
      refine ⟨rfl, rfl, rfl, ?_⟩
      rw [heq]
    · rename_i sid depth rest heq
      obtain ⟨s1, s2, s3, s4⟩ := rescan_source_step_frame env project_id
        existing { st with queue := rest } sid depth
      obtain ⟨l1, l2, l3, l4⟩ := ih (rescan_source_step env project_id
        existing { st with queue := rest } sid depth)
      have hq2 : (rescan_source_step env project_id existing
          { st with queue := rest } sid depth).queue = rest := s2.trans rfl
      rw [hq2] at l4
      have h1 : (rescan_loop env project_id existing n
          (rescan_source_step env project_id existing
            { st with queue := rest } sid depth)).queue <:+ rest := l4
      have h2 : rest <:+ st.queue := by
        rw [heq]
        exact List.suffix_cons (sid, depth) rest
      exact ⟨l1.trans s1, l2.trans s3, l3.trans s4, h1.trans h2⟩

theorem mem_insertSet (a u : String) (s : List String) :
    a ∈ insertSet u s ↔ a = u ∨ a ∈ s := by
  unfold insertSet
  split
  · rename_i hu
    constructor
    · exact Or.inr
    · rintro (rfl | h)
      · exact hu
      · exact h
  · simp [List.mem_append, or_comm]

theorem nodup_insertSet (u : String) (s : List String) (h : s.Nodup) :
    (insertSet u s).Nodup := by
  unfold insertSet
  split
  · exact h
  · rename_i hu
    simp only [List.nodup_append, List.nodup_cons, List.not_mem_nil,
      not_false_iff, List.nodup_nil, and_true, true_and]
    constructor
    · exact h
    · intro a ha
      simp only [List.mem_singleton]
      intro heq
      exact hu (heq ▸ ha)

theorem classify_spec (existing newly urls : List String) :
    ∀ res : CrawlResult,
      (∀ u, u ∈ (classify_content_urls existing newly res urls).new_links →
        u ∈ res.new_links ∨ u ∉ existing) ∧
      (∀ u, u ∈ (classify_content_urls existing newly res urls).existing_links →
        u ∈ res.existing_links ∨ u ∈ existing) ∧
      (res.new_links.Nodup →
        (classify_content_urls existing newly res urls).new_links.Nodup) ∧
      (res.existing_links.Nodup →
        (classify_content_urls existing newly res urls).existing_links.Nodup) ∧
      (∀ u, u ∈ res.existing_links →
        u ∈ (classify_content_urls existing newly res urls).existing_links) ∧
      (∀ u, u ∈ existing → u ∈ urls →
        u ∈ (classify_content_urls existing newly res urls).existing_links) := by
  induction urls with
  | nil =>
    intro res
    exact ⟨fun u h => Or.inl h, fun u h => Or.inl h, id, id, fun u h => h,
      fun u _ h => absurd h (List.not_mem_nil u)⟩
  | cons v rest ih =>
    intro res
    rw [classify_cons]
    by_cases hv1 : v ∈ existing
    · rw [if_pos hv1]
      obtain ⟨i1, i2, i3, i4, i5, i6⟩ := ih
        { res with existing_links := insertSet v res.existing_links }
      refine ⟨i1, ?_, i3, ?_, ?_, ?_⟩
      · intro u hu
        rcases i2 u hu with hmem | hex
        · rcases (mem_insertSet u v res.existing_links).mp hmem with rfl | hold
          · exact Or.inr hv1
          · exact Or.inl hold
        · exact Or.inr hex
      · intro hnd
        exact i4 (nodup_insertSet v res.existing_links hnd)
      · intro u hu
        exact i5 u ((mem_insertSet u v res.existing_links).mpr (Or.inr hu))
      · intro u hu hmem
        rcases List.mem_cons.mp hmem with rfl | hrest
        · exact i5 u ((mem_insertSet u u res.existing_links).mpr (Or.inl rfl))
        · exact i6 u hu hrest
    · rw [if_neg hv1]
      by_cases hv2 : v ∈ newly
      · rw [if_pos hv2]
        obtain ⟨i1, i2, i3, i4, i5, i6⟩ := ih res
        refine ⟨i1, i2, i3, i4, i5, ?_⟩
        intro u hu hmem
        rcases List.mem_cons.mp hmem with rfl | hrest
        · exact absurd hu hv1
        · exact i6 u hu hrest
      · rw [if_neg hv2]
        obtain ⟨i1, i2, i3, i4, i5, i6⟩ := ih
          { res with new_links := insertSet v res.new_links }
        refine ⟨?_, i2, ?_, i4, i5, ?_⟩
        · intro u hu
          rcases i1 u hu with hmem | hex
          · rcases (mem_insertSet u v res.new_links).mp hmem with rfl | hold
            · exact Or.inr hv1
            · exact Or.inl hold
          · exact Or.inr hex
        · intro hnd
          exact i3 (nodup_insertSet v res.new_links hnd)
        · intro u hu hmem
          rcases List.mem_cons.mp hmem with rfl | hrest
          · exact absurd hu hv1
          · exact i6 u hu hrest

theorem process_category_url_preserves_links (pid : String)
    (src : ProjectSource) (depth : Nat) (st : CrawlState) (c : String) :
    (process_category_url pid src depth st c).result.new_links
      = st.result.new_links ∧
    (process_category_url pid src depth st c).result.existing_links
      = st.result.existing_links := by
  unfold process_category_url
  split
  · exact ⟨rfl, rfl⟩
  · split
    · exact ⟨rfl, rfl⟩
    · exact ⟨rfl, rfl⟩

theorem process_categories_preserve_links (pid : String)
    (src : ProjectSource) (depth : Nat) (urls : List String) :
    ∀ st : CrawlState,
      (urls.foldl (process_category_url pid src depth) st).result.new_links
        = st.result.new_links ∧
      (urls.foldl (process_category_url pid src depth) st).result.existing_links
        = st.result.existing_links := by
  induction urls with
  | nil => intro st; exact ⟨rfl, rfl⟩
  | cons c rest ih =>
    intro st
    simp only [List.foldl_cons]
    obtain ⟨i1, i2⟩ := ih (process_category_url pid src depth st c)
    obtain ⟨p1, p2⟩ := process_category_url_preserves_links pid src depth st c
    exact ⟨i1.trans p1, i2.trans p2⟩

theorem crawl_page_body_links (env : CrawlEnv) (pid : String)
    (src : ProjectSource) (selectors : SelectorResponse) (depth : Nat)
    (existing newly : List String) (page : PageDoc) (url : String)
    (pages : Nat) (st : CrawlState) :
    (∀ u, u ∈ (crawl_page_body env pid src selectors depth existing newly
        page url pages st).result.new_links →
      u ∈ st.result.new_links ∨ u ∉ existing) ∧
    (∀ u, u ∈ (crawl_page_body env pid src selectors depth existing newly
        page url pages st).result.existing_links →
      u ∈ st.result.existing_links ∨ u ∈ existing) ∧
    (st.result.new_links.Nodup →
      (crawl_page_body env pid src selectors depth existing newly
        page url pages st).result.new_links.Nodup) ∧
    (st.result.existing_links.Nodup →
      (crawl_page_body env pid src selectors depth existing newly
        page url pages st).result.existing_links.Nodup) := by
  unfold crawl_page_body
  obtain ⟨c1, c2, c3, c4, -, -⟩ := classify_spec existing newly
    (page_content_urls env page url src.url_exclusion_patterns
      selectors.content_selectors
      (page_category_urls env page url src.url_exclusion_patterns
        selectors.category_selectors depth src.max_crawl_depth)) st.result
  split
  · obtain ⟨p1, p2⟩ := process_categories_preserve_links pid src depth
      (page_category_urls env page url src.url_exclusion_patterns
        selectors.category_selectors depth src.max_crawl_depth)
      { st with
        result := classify_content_urls existing newly st.result
          (page_content_urls env page url src.url_exclusion_patterns
            selectors.content_selectors
            (page_category_urls env page url src.url_exclusion_patterns
              selectors.category_selectors depth src.max_crawl_depth)) }
    refine ⟨?_, ?_, ?_, ?_⟩
    · intro u hu
      rw [p1] at hu
      exact c1 u hu
    · intro u hu
      rw [p2] at hu
      exact c2 u hu
    · intro hnd
      rw [p1]
      exact c3 hnd
    · intro hnd
      rw [p2]
      exact c4 hnd
  · exact ⟨c1, c2, c3, c4⟩

theorem crawl_pages_links (env : CrawlEnv) (pid : String)
    (src : ProjectSource) (selectors : SelectorResponse) (depth : Nat)
    (existing newly : List String) :
    ∀ fuel url pages st,
      (∀ u, u ∈ (crawl_pages env pid src selectors depth existing newly
          fuel url pages st).1.result.new_links →
        u ∈ st.result.new_links ∨ u ∉ existing) ∧
      (∀ u, u ∈ (crawl_pages env pid src selectors depth existing newly
          fuel url pages st).1.result.existing_links →
        u ∈ st.result.existing_links ∨ u ∈ existing) ∧
      (st.result.new_links.Nodup →
        (crawl_pages env pid src selectors depth existing newly
          fuel url pages st).1.result.new_links.Nodup) ∧
      (st.result.existing_links.Nodup →
        (crawl_pages env pid src selectors depth existing newly
          fuel url pages st).1.result.existing_links.Nodup) := by
  intro fuel
  induction fuel with
  | zero =>
    intro url pages st
    exact ⟨fun u h => Or.inl h, fun u h => Or.inl h, id, id⟩
  | succ n ih =>
    intro url pages st
    simp only [crawl_pages]
    cases hf : env.fetch url with
    | none => exact ⟨fun u h => Or.inl h, fun u h => Or.inl h, id, id⟩
    | some page =>
      obtain ⟨b1, b2, b3, b4⟩ := crawl_page_body_links env pid src selectors
        depth existing newly page url (pages + 1) st
      cases hpp : page_pagination env page selectors url with
      | inl reason =>
        simp only [hpp]
        exact ⟨b1, b2, b3, b4⟩
      | inr next_url =>
        simp only [hpp]
        obtain ⟨i1, i2, i3, i4⟩ := ih next_url (pages + 1)
          (crawl_page_body env pid src selectors depth existing newly page
            url (pages + 1) st)
        refine ⟨?_, ?_, ?_, ?_⟩
        · intro u hu
          rcases i1 u hu with hmem | hnin
          · exact b1 u hmem
          · exact Or.inr hnin
        · intro u hu
          rcases i2 u hu with hmem | hin
          · exact b2 u hmem
          · exact Or.inr hin
        · intro hnd
          exact i3 (b3 hnd)
        · intro hnd
          exact i4 (b4 hnd)

theorem mem_foldl_insertSet (l : List String) :
    ∀ (acc : List String) (u : String),
      u ∈ l.foldl (fun acc v => insertSet v acc) acc ↔ u ∈ acc ∨ u ∈ l := by
  induction l with
  | nil => simp
  | cons x xs ih =>
    intro acc u
    simp only [List.foldl_cons, List.mem_cons]
    rw [ih (insertSet x acc) u, mem_insertSet]
    tauto

theorem nodup_foldl_insertSet (l : List String) :
    ∀ acc : List String, acc.Nodup →
      (l.foldl (fun acc v => insertSet v acc) acc).Nodup := by
  induction l with
  | nil => intro acc h; exact h
  | cons x xs ih =>
    intro acc h
    exact ih (insertSet x acc) (nodup_insertSet x acc h)

/-- The run invariant of `discover_and_crawl_sources`: nothing persisted
ever enters `all_new_links`, `all_existing_links` only holds persisted
URLs, and both sets are duplicate-free. -/
def discover_inv (existing : List String) (st : JobRunState) : Prop :=
  (∀ u ∈ st.all_new_links, u ∉ existing) ∧
  (∀ u ∈ st.all_existing_links, u ∈ existing) ∧
  st.all_new_links.Nodup ∧ st.all_existing_links.Nodup

theorem merge_crawl_result_inv (existing : List String) (st : JobRunState)
    (cst : CrawlState) (k : Nat)
    (h : discover_inv existing st)
    (hn : ∀ u ∈ cst.result.new_links, u ∉ existing)
    (he : ∀ u ∈ cst.result.existing_links, u ∈ existing) :
    discover_inv existing (merge_crawl_result st cst k) := by
  obtain ⟨h1, h2, h3, h4⟩ := h
  refine ⟨?_, ?_, ?_, ?_⟩
  · intro u hu
    rw [show (merge_crawl_result st cst k).all_new_links
        = cst.result.new_links.foldl (fun acc v => insertSet v acc)
          st.all_new_links from rfl,
      mem_foldl_insertSet] at hu
    rcases hu with hacc | hnew
    · exact h1 u hacc
    · exact hn u hnew
  · intro u hu
    rw [show (merge_crawl_result st cst k).all_existing_links
        = cst.result.existing_links.foldl (fun acc v => insertSet v acc)
          st.all_existing_links from rfl,
      mem_foldl_insertSet] at hu
    rcases hu with hacc | hnew
    · exact h2 u hacc
    · exact he u hnew
  · exact nodup_foldl_insertSet cst.result.new_links st.all_new_links h3
  · exact nodup_foldl_insertSet cst.result.existing_links
      st.all_existing_links h4

theorem discover_source_step_inv (env : CrawlEnv) (pid : String)
    (existing : List String) (st : JobRunState) (sid : Nat) (depth : Nat)
    (h : discover_inv existing st) :
    discover_inv existing
      (discover_source_step env pid existing st sid depth) := by
  unfold discover_source_step
  split
  · exact h
  · rename_i source heq
    split
    · exact h
    · rename_i page hfet
      split
      · exact h
      · rename_i sel hsel
        simp only [crawl_and_discover]
        obtain ⟨c1, c2, -, -⟩ := crawl_pages_links env pid source sel depth
          existing st.all_new_links source.max_pages_to_crawl source.url 0
          ⟨st.queue, st.visited, update_source_selectors st.db source.id sel,
            ⟨[], [], 0⟩⟩
        refine merge_crawl_result_inv existing st _ 1 h ?_ ?_
        · intro u hu
          rcases c1 u hu with habs | hok
          · exact absurd habs (List.not_mem_nil u)
          · exact hok
        · intro u hu
          rcases c2 u hu with habs | hok
          · exact absurd habs (List.not_mem_nil u)
          · exact hok

theorem discover_loop_inv (env : CrawlEnv) (pid : String)
    (existing : List String) :
    ∀ fuel st, discover_inv existing st →
      discover_inv existing (discover_loop env pid existing fuel st) := by
  intro fuel
  induction fuel with
  | zero => intro st h; exact h
  | succ n ih =>
    intro st h
    simp only [discover_loop]
    split
    · exact h
    · rename_i sid depth rest heq
      refine ih _ (discover_source_step_inv env pid existing _ sid depth ?_)
      exact h

theorem discover_init_inv (existing : List String) (db : CrawlDb)
    (ids : List Nat) : discover_inv existing (job_init_state db ids) := by
  obtain ⟨-, h2, h3, -, -, -⟩ := job_init_state_frame db ids
  refine ⟨?_, ?_, ?_, ?_⟩
  · intro u hu
    rw [h2] at hu
    exact absurd hu (List.not_mem_nil u)
  · intro u hu
    rw [h3] at hu
    exact absurd hu (List.not_mem_nil u)
  · rw [h2]; exact List.nodup_nil
  · rw [h3]; exact List.nodup_nil

theorem mem_sorted_strings (u : String) (l : List String) :
    u ∈ sorted_strings l ↔ u ∈ l :=
  (List.perm_insertionSort (fun a b => a ≤ b) l).mem_iff

theorem nodup_sorted_strings (l : List String) (h : l.Nodup) :
    (sorted_strings l).Nodup :=
  ((List.perm_insertionSort (fun a b => a ≤ b) l).nodup_iff).mpr h

theorem sorted_sorted_strings (l : List String) :
    List.Sorted (fun a b => a ≤ b) (sorted_strings l) :=
  List.sorted_insertionSort (fun a b => a ≤ b) l

/-- C10: a `rescan_links` run always invokes the crawl core with an empty
category-selector list, so it never creates a child source and never
records a parent-to-child hierarchy edge (the database is unchanged),
never enqueues sources beyond those of the payload (the queue only
shrinks from its initial payload-derived content), and its final result
has `new_sources_created = 0` and `selectors_generated = 0`. -/
theorem rescan_never_creates_sources (env : CrawlEnv) (db : CrawlDb)
    (project_id : String) (existing_db_links : List String)
    (payload_source_ids : List Nat) (fuel : Nat) :
    (rescan_run env db project_id existing_db_links payload_source_ids
        fuel).db = db ∧
    (rescan_run env db project_id existing_db_links payload_source_ids
        fuel).queue <:+ (job_init_state db payload_source_ids).queue ∧
    (rescan_links env db project_id existing_db_links payload_source_ids
        fuel).new_sources_created = 0 ∧
    (rescan_links env db project_id existing_db_links payload_source_ids
        fuel).selectors_generated = 0 := by
  obtain ⟨i1, -, -, i4, -, -⟩ := job_init_state_frame db payload_source_ids
  obtain ⟨l1, l2, -, l4⟩ := rescan_loop_frame env project_id
    existing_db_links fuel (job_init_state db payload_source_ids)
  refine ⟨?_, ?_, ?_, rfl⟩
  · exact l1.trans i1
  · exact l4
  · show (rescan_run env db project_id existing_db_links payload_source_ids
        fuel).total_new_sources = 0
    exact l2.trans i4

/-- C8: across an entire non-cancelled `discover_and_crawl_sources` run,
every URL already persisted as a Link of the project is never reported in
`new_links`; `new_links` and `existing_links` are disjoint; every entry of
`existing_links` is a persisted URL; both final lists are sorted and
duplicate-free; and on every crawled page the per-page classification puts
a persisted surviving content URL into the existing set, however many
pages reference it (last conjunct, about the classification loop itself). -/
theorem discover_run_classification (env : CrawlEnv) (db : CrawlDb)
    (project_id : String) (existing_db_links : List String)
    (payload_source_ids : List Nat) (fuel : Nat) :
    (∀ u ∈ existing_db_links,
      u ∉ (discover_and_crawl_sources env db project_id existing_db_links
        payload_source_ids fuel).new_links) ∧
    (∀ u ∈ (discover_and_crawl_sources env db project_id existing_db_links
        payload_source_ids fuel).new_links,
      u ∉ (discover_and_crawl_sources env db project_id existing_db_links
        payload_source_ids fuel).existing_links) ∧
    (∀ u ∈ (discover_and_crawl_sources env db project_id existing_db_links
        payload_source_ids fuel).existing_links, u ∈ existing_db_links) ∧
    List.Sorted (fun a b => a ≤ b)
      (discover_and_crawl_sources env db project_id existing_db_links
        payload_source_ids fuel).new_links ∧
    (discover_and_crawl_sources env db project_id existing_db_links
        payload_source_ids fuel).new_links.Nodup ∧
    List.Sorted (fun a b => a ≤ b)
      (discover_and_crawl_sources env db project_id existing_db_links
        payload_source_ids fuel).existing_links ∧
    (discover_and_crawl_sources env db project_id existing_db_links
        payload_source_ids fuel).existing_links.Nodup ∧
    (∀ (ex nw : List String) (res : CrawlResult) (urls : List String)
      (u : String), u ∈ ex → u ∈ urls →
      u ∈ (classify_content_urls ex nw res urls).existing_links) := by
  obtain ⟨h1, h2, h3, h4⟩ := discover_loop_inv env project_id
    existing_db_links fuel (job_init_state db payload_source_ids)
    (discover_init_inv existing_db_links db payload_source_ids)
  have hnew : (discover_and_crawl_sources env db project_id
      existing_db_links payload_source_ids fuel).new_links
      = sorted_strings (discover_run env db project_id existing_db_links
        payload_source_ids fuel).all_new_links := rfl
  have hex : (discover_and_crawl_sources env db project_id
      existing_db_links payload_source_ids fuel).existing_links
      = sorted_strings (discover_run env db project_id existing_db_links
        payload_source_ids fuel).all_existing_links := rfl
  refine ⟨?_, ?_, ?_, ?_, ?_, ?_, ?_, ?_⟩
  · intro u hu hmem
    rw [hnew, mem_sorted_strings] at hmem
    exact h1 u hmem hu
  · intro u hu hmem
    rw [hnew, mem_sorted_strings] at hu
    rw [hex, mem_sorted_strings] at hmem
    exact h1 u hu (h2 u hmem)
  · intro u hu
    rw [hex, mem_sorted_strings] at hu
    exact h2 u hu
  · rw [hnew]; exact sorted_sorted_strings _
  · rw [hnew]; exact nodup_sorted_strings _ h3
  · rw [hex]; exact sorted_sorted_strings _
  · rw [hex]; exact nodup_sorted_strings _ h4
  · intro ex nw res urls u hu hurls
    exact (classify_spec ex nw urls res).2.2.2.2.2 u hu hurls

/-- Witness for C8: an empty run over a project with one persisted URL
`x`, and a concrete page classification placing the persisted URL `x`
into the existing set. -/
theorem discover_run_classification_witness :
    "x" ∉ (discover_and_crawl_sources ⟨fun _ => none, fun _ h => h,
        fun _ _ => false, fun _ => none⟩ ⟨[], 0, []⟩ "p" ["x"] [] 0).new_links ∧
    "x" ∈ (classify_content_urls ["x"] [] ⟨[], [], 0⟩ ["x"]).existing_links :=
  ⟨(discover_run_classification ⟨fun _ => none, fun _ h => h,
      fun _ _ => false, fun _ => none⟩ ⟨[], 0, []⟩ "p" ["x"] [] 0).1 "x"
      (by decide),
   (discover_run_classification ⟨fun _ => none, fun _ h => h,
      fun _ _ => false, fun _ => none⟩ ⟨[], 0, []⟩ "p" ["x"] [] 0).2.2.2.2.2.2.2
      ["x"] [] ⟨[], [], 0⟩ ["x"] "x" (by decide) (by decide)⟩

end World2
